import Mathlib

/-!
Shallow embedding of the frame construction, validation, and transition
engine of `omgtools/problems/multiframeproblem.py` (class `MultiFrameProblem`),
together with theorems settling the frozen claims about it.

Coordinates are modelled as exact real numbers (the Python code computes with
floats, square roots and trigonometric functions); every branch and assignment
of the source functions is translated directly.  Helper routines that the
source imports from sibling modules not present under `src/`
(`..basics.geometry`, `..basics.shape`, `..environment.environment`) are
modelled from the spec and marked as such in their doc comments.
-/

noncomputable section
open Classical

namespace MultiFrame

/-- A 2D point (Python: a two-element list `[x, y]`). -/
abbrev Point := ℝ × ℝ

/-- The `limits` entry `[xmin, ymin, xmax, ymax]` of a frame border.
The source's `make_border` also derives `shape`, `position` and `orientation`
from the same four numbers; only `limits` is read by the frame engine, so the
embedding keeps the four limits. -/
structure Border where
  xmin : ℝ
  ymin : ℝ
  xmax : ℝ
  ymax : ℝ
deriving DecidableEq

/-- `make_border(xmin, ymin, xmax, ymax)` (multiframeproblem.py lines 865-873),
restricted to the `limits` data actually consumed downstream. -/
def make_border (xmin ymin xmax ymax : ℝ) : Border :=
  ⟨xmin, ymin, xmax, ymax⟩

/-- The environment room: a zero-orientation rectangle shape (width, height)
placed at `position`.  Modelled from the spec: the environment "exposes outer
boundary shape/position for scale-up clipping". -/
structure Room where
  width : ℝ
  height : ℝ
  posx : ℝ
  posy : ℝ

/-- `environment.room['shape'].get_canvas_limits()[0][0] + environment.room['position'][0]`:
the room's outer x-minimum.  Modelled from the spec: a rectangle's canvas
limits are `[[-width/2, width/2], [-height/2, height/2]]`. -/
def Room.xmin (r : Room) : ℝ := -(r.width / 2) + r.posx

/-- The room's outer x-maximum (canvas limit plus position). -/
def Room.xmax (r : Room) : ℝ := r.width / 2 + r.posx

/-- The room's outer y-minimum (canvas limit plus position). -/
def Room.ymin (r : Room) : ℝ := -(r.height / 2) + r.posy

/-- The room's outer y-maximum (canvas limit plus position). -/
def Room.ymax (r : Room) : ℝ := r.height / 2 + r.posy

/-- Obstacle shape: the engine supports circles and rectangles
(`..basics.shape`; modelled from the spec's tagged variant
`{Circle{radius}, Rectangle{width, height, orientation}}`). -/
inductive Shape where
  | circle (radius : ℝ)
  | rectangle (width height orientation : ℝ)

/-- `shape.get_canvas_limits()` as `((xmin, xmax), (ymin, ymax))`.
Modelled from the spec: the bounding box of the shape around its own center:
a circle is "conservatively approximated by its bounding square". -/
def Shape.canvas_limits : Shape → (ℝ × ℝ) × (ℝ × ℝ)
  | .circle r => ((-r, r), (-r, r))
  | .rectangle w h _ => ((-(w / 2), w / 2), (-(h / 2), h / 2))

/-- An environment obstacle, with the signal data the frame engine reads:
last position sample, last velocity sample, the optional
`simulation['trajectories']['velocity']['values']` list, and the mutable
`options['avoid']` flag. -/
structure Obstacle where
  shape : Shape
  posx : ℝ
  posy : ℝ
  velx : ℝ
  vely : ℝ
  /-- `obstacle.simulation['trajectories']['velocity']['values']` when both
  the `trajectories` and `velocity` entries exist, else `none`. -/
  simTrajVel : Option (List Point)
  avoid : Bool

/-- The stationarity test of `get_stationary_obstacles_in_frame`
(lines 607-608): no `trajectories` entry, or no `velocity` entry, or all
velocity samples equal `[0.] * n_dim`. -/
def Obstacle.isStationary (ob : Obstacle) : Bool :=
  match ob.simTrajVel with
  | none => true
  | some vs => vs.all (fun v => v = ((0 : ℝ), (0 : ℝ)))

/-- Whether the obstacle's shape is supported by
`get_stationary_obstacles_in_frame` (a zero-orientation rectangle or a
circle); the source raises `RuntimeError` for a stationary obstacle of any
other shape.  The environments in this file contain only supported shapes,
so the raise path is never taken. -/
def Obstacle.supported (ob : Obstacle) : Bool :=
  match ob.shape with
  | .circle _ => true
  | .rectangle _ _ o => o = 0

/-- The obstacle's world-coordinate bounding box
(`get_canvas_limits` shifted by `signals['position'][:,-1]`, lines 647-652),
as `(xmin_obs, xmax_obs, ymin_obs, ymax_obs)`. -/
def Obstacle.bbox (ob : Obstacle) : ℝ × ℝ × ℝ × ℝ :=
  let l := ob.shape.canvas_limits
  (l.1.1 + ob.posx, l.1.2 + ob.posx, l.2.1 + ob.posy, l.2.2 + ob.posy)

/-- The AABB overlap test of lines 654: `xmin_f <= xmax_obs and
xmax_f >= xmin_obs and ymin_f <= ymax_obs and ymax_f >= ymin_obs`. -/
def overlapsFrame (b : Border) (ob : Obstacle) : Bool :=
  let (xmin_obs, xmax_obs, ymin_obs, ymax_obs) := ob.bbox
  b.xmin ≤ xmax_obs ∧ b.xmax ≥ xmin_obs ∧ b.ymin ≤ ymax_obs ∧ b.ymax ≥ ymin_obs

/-- `get_stationary_obstacles_in_frame` (lines 591-660): collect every
stationary obstacle whose bounding box overlaps the frame border.  The
environment is passed explicitly; the frame argument is the border (the only
part of the frame the function reads, through `limits`). -/
def get_stationary_obstacles_in_frame (env : List Obstacle) (b : Border) :
    List Obstacle :=
  env.filter (fun ob => ob.isStationary && ob.supported && overlapsFrame b ob)

/-- `point_in_frame(point, frame=..., distance=...)` with `time=None`
(lines 1276-1280): `xmin+distance <= x <= xmax-distance` and the same in y. -/
def point_in_frame (b : Border) (p : Point) (distance : ℝ) : Bool :=
  (b.xmin + distance ≤ p.1 ∧ p.1 ≤ b.xmax - distance) ∧
    (b.ymin + distance ≤ p.2 ∧ p.2 ≤ b.ymax - distance)

/-- Python 2 `round`: round half away from zero, as a real number. -/
def pyRound (x : ℝ) : ℤ :=
  if 0 ≤ x then ⌊x + 1 / 2⌋ else -⌊-x + 1 / 2⌋

/-- `point_in_frame(point, time=motion_time, velocity=velocity)` (lines
1281-1294): sample the constant-velocity trajectory at `N+1` points where
`N = int(round(motion_time/0.5) + 1)` and `Ts = motion_time/N`, and report
whether any sample lies inside the border (no margin). -/
def point_in_frame_time (b : Border) (motion_time : ℝ) (p v : Point) : Bool :=
  let time_interval : ℝ := 0.5
  let N : ℤ := pyRound (motion_time / time_interval) + 1
  let Ts : ℝ := motion_time / (N : ℝ)
  (List.range (N + 1).toNat).any (fun l =>
    b.xmin ≤ p.1 + (l : ℝ) * Ts * v.1 ∧ p.1 + (l : ℝ) * Ts * v.1 ≤ b.xmax ∧
      b.ymin ≤ p.2 + (l : ℝ) * Ts * v.2 ∧ p.2 + (l : ℝ) * Ts * v.2 ≤ b.ymax)

/-- `distance_between_points` from `..basics.geometry`.  Modelled from the
spec: the straight-line (Euclidean) distance between two 2D points. -/
def distance_between_points (p q : Point) : ℝ :=
  Real.sqrt ((p.1 - q.1) ^ 2 + (p.2 - q.2) ^ 2)

/-- `distance_to_border(point, frame)` (lines 1375-1407): the x- and
y-direction signed distances from a point (assumed inside the frame) to the
nearer vertical and horizontal border edge, via the point-to-line distance
formula; negative sign means the min-edge is nearer. -/
def distance_to_border (b : Border) (point : Point) : ℝ × ℝ :=
  let v1 : Point := (b.xmin, b.ymin)
  let v2 : Point := (b.xmin, b.ymax)
  let v3 : Point := (b.xmax, b.ymax)
  let v4 : Point := (b.xmax, b.ymin)
  let dist12 : ℝ :=
    -|(v2.2 - v1.2) * point.1 - (v2.1 - v1.1) * point.2 + v2.1 * v1.2 - v2.2 * v1.1| /
      Real.sqrt ((v2.2 - v1.2) ^ 2 + (v2.1 - v1.1) ^ 2)
  let dist23 : ℝ :=
    |(v3.2 - v2.2) * point.1 - (v3.1 - v2.1) * point.2 + v3.1 * v2.2 - v3.2 * v2.1| /
      Real.sqrt ((v3.2 - v2.2) ^ 2 + (v3.1 - v2.1) ^ 2)
  let dist34 : ℝ :=
    |(v4.2 - v3.2) * point.1 - (v4.1 - v3.1) * point.2 + v4.1 * v3.2 - v4.2 * v3.1| /
      Real.sqrt ((v4.2 - v3.2) ^ 2 + (v4.1 - v3.1) ^ 2)
  let dist41 : ℝ :=
    -|(v1.2 - v4.2) * point.1 - (v1.1 - v4.1) * point.2 + v1.1 * v4.2 - v1.2 * v4.1| /
      Real.sqrt ((v1.2 - v4.2) ^ 2 + (v1.1 - v4.1) ^ 2)
  (if |dist12| < |dist34| then dist12 else dist34,
    if |dist23| < |dist41| then dist23 else dist41)

/-- `numpy.arctan2 y x`.  Modelled from the spec (standard two-argument
arctangent): the angle of the vector `(x, y)`. -/
def atan2 (y x : ℝ) : ℝ :=
  if 0 < x then Real.arctan (y / x)
  else if x < 0 then
    (if 0 ≤ y then Real.arctan (y / x) + Real.pi else Real.arctan (y / x) - Real.pi)
  else
    (if 0 < y then Real.pi / 2 else if y < 0 then -(Real.pi / 2) else 0)

/-- The segment length computed at line 1344 of `shift_point_back`. -/
def seg_length (s e : Point) : ℝ :=
  Real.sqrt ((e.1 - s.1) ^ 2 + (e.2 - s.2) ^ 2)

/-- The `move_back` distance of `shift_point_back` (lines 1354-1359): the
required distance along the connection for a desired perpendicular
`distance` to the border. -/
def move_back (s e : Point) (distance : ℝ) : ℝ :=
  if s.1 = e.1 ∨ s.2 = e.2 then distance
  else
    max |distance / Real.cos (atan2 (e.2 - s.2) (e.1 - s.1))|
      |distance / Real.sin (atan2 (e.2 - s.2) (e.1 - s.1))|

/-- `shift_point_back(start, end, percentage, distance)` (lines 1341-1373).
Returns `none` when both `percentage` and `distance` are `0`, where the
Python function would read the unassigned `new_length` and raise
`NameError`; every call site passes `distance > 0`. -/
def shift_point_back (s e : Point) (percentage distance : ℝ) : Option Point :=
  let length := seg_length s e
  let angle := atan2 (e.2 - s.2) (e.1 - s.1)
  let new_length? : Option ℝ :=
    if percentage ≠ 0 then some (length * (1 - percentage / 100))
    else if distance ≠ 0 then
      some (if length - move_back s e distance < 0 then 0
            else length - move_back s e distance)
    else none
  new_length?.map (fun new_length =>
    (s.1 + new_length * Real.cos angle, s.2 + new_length * Real.sin angle))

/-- `self.veh_size` as computed in `__init__` (lines 43-47): the circle
radius, or `max(width, height)` for a rectangle vehicle shape. -/
def veh_size : Shape → ℝ
  | .circle r => r
  | .rectangle w h _ => max w h

/-- `self.scale_factor = 1.2` (line 48): "margin, to keep vehicle a little
further from border". -/
def scale_factor : ℝ := 1.2

/-- The vehicle envelope as the spec's words describe it (for claim C5):
"max of circle radius or rectangle's larger half-dimension times a fixed
safety scale factor (1.2)". -/
def spec_envelope : Shape → ℝ
  | .circle r => r * 1.2
  | .rectangle w h _ => max (w / 2) (h / 2) * 1.2

/-- The frame dictionary built by the frame builders: `border`, `waypoints`,
the `endpoint_frame` entry (absent until assigned, hence an `Option`) and the
`stationary_obstacles` entry (empty until assigned). -/
structure Frame where
  border : Border
  waypoints : List Point
  endpoint : Option Point
  stationary_obstacles : List Obstacle := []

/-- `move_frame(delta_x, delta_y, move_limit)` (lines 1219-1266): shift the
fixed-size frame toward the waypoint direction by at most `move_limit`
(plus vehicle margin), then clip the new limits to the environment's outer
bounds; returns `(newx_min, newy_min, newx_max, newy_max)`. -/
def move_frame (room : Room) (frame_size vsize sfactor : ℝ) (curr : Point)
    (delta_x delta_y move_limit : ℝ) : ℝ × ℝ × ℝ × ℝ :=
  let base := frame_size * 0.5
  let (newx_lower, newx_upper) :=
    if |delta_x| > frame_size * 0.5 then
      let move := min move_limit (|delta_x| - frame_size * 0.5 + vsize * sfactor)
      if delta_x > 0 then (base - move, base + move) else (base + move, base - move)
    else (base, base)
  let (newy_lower, newy_upper) :=
    if |delta_y| > frame_size * 0.5 then
      let move := min move_limit (|delta_y| - frame_size * 0.5 + vsize * sfactor)
      if delta_y > 0 then (base - move, base + move) else (base + move, base - move)
    else (base, base)
  let newx_min := curr.1 - newx_lower
  let newy_min := curr.2 - newy_lower
  let newx_max := curr.1 + newx_upper
  let newy_max := curr.2 + newy_upper
  let newx_min := if newx_min < room.xmin then room.xmin else newx_min
  let newx_max := if newx_max > room.xmax then room.xmax else newx_max
  let newy_min := if newy_min < room.ymin then room.ymin else newy_min
  let newy_max := if newy_max > room.ymax then room.ymax else newy_max
  (newx_min, newy_min, newx_max, newy_max)

/-- The orientation of the ordered triple `(a, b, c)` used by the standard
2D segment-intersection test.  Modelled from the spec:
`intersect_line_segments` is "standard 2D segment ... intersection". -/
def orient (a b c : Point) : ℝ :=
  (b.1 - a.1) * (c.2 - a.2) - (b.2 - a.2) * (c.1 - a.1)

/-- Whether `c` lies on the axis-aligned bounding box of segment `ab`
(the collinear sub-case of the standard segment-intersection test).
Modelled from the spec. -/
def on_segment (a b c : Point) : Bool :=
  min a.1 b.1 ≤ c.1 ∧ c.1 ≤ max a.1 b.1 ∧ min a.2 b.2 ≤ c.2 ∧ c.2 ≤ max a.2 b.2

/-- `intersect_line_segments` from `..basics.geometry`.  Modelled from the
spec: the standard bounded 2D segment-intersection test (proper crossing, or
a collinear endpoint lying on the other segment). -/
def intersect_line_segments (l1 l2 : Point × Point) : Bool :=
  let (p1, p2) := l1
  let (p3, p4) := l2
  let d1 := orient p3 p4 p1
  let d2 := orient p3 p4 p2
  let d3 := orient p1 p2 p3
  let d4 := orient p1 p2 p4
  (((0 < d1 ∧ d2 < 0) ∨ (d1 < 0 ∧ 0 < d2)) ∧
      ((0 < d3 ∧ d4 < 0) ∨ (d3 < 0 ∧ 0 < d4))) ∨
    (d1 = 0 ∧ on_segment p3 p4 p1) ∨ (d2 = 0 ∧ on_segment p3 p4 p2) ∨
    (d3 = 0 ∧ on_segment p1 p2 p3) ∨ (d4 = 0 ∧ on_segment p1 p2 p4)

/-- `intersect_lines` from `..basics.geometry`.  Modelled from the spec: the
intersection point of the two infinite lines through the given point pairs
(the standard determinant formula; callers first establish via
`intersect_line_segments` that the denominator is nonzero). -/
def intersect_lines (l1 l2 : Point × Point) : Point :=
  let (p1, p2) := l1
  let (p3, p4) := l2
  let denom := (p1.1 - p2.1) * (p3.2 - p4.2) - (p1.2 - p2.2) * (p3.1 - p4.1)
  (((p1.1 * p2.2 - p1.2 * p2.1) * (p3.1 - p4.1) -
      (p1.1 - p2.1) * (p3.1 * p4.2 - p3.2 * p4.1)) / denom,
    ((p1.1 * p2.2 - p1.2 * p2.1) * (p3.2 - p4.2) -
      (p1.2 - p2.2) * (p3.1 * p4.2 - p3.2 * p4.1)) / denom)

/-- `find_intersection_line_frame(line)` (lines 1298-1339): try the four
border sides in clockwise order (top, right, bottom, left) and return the
infinite-line intersection point with the first side whose bounded segment
intersects `line`; the source raises `ValueError` when no side intersects
(`none` here). -/
def find_intersection_line_frame (b : Border) (line : Point × Point) :
    Option Point :=
  let top_side : Point × Point := ((b.xmin, b.ymax), (b.xmax, b.ymax))
  let right_side : Point × Point := ((b.xmax, b.ymax), (b.xmax, b.ymin))
  let bottom_side : Point × Point := ((b.xmax, b.ymin), (b.xmin, b.ymin))
  let left_side : Point × Point := ((b.xmin, b.ymin), (b.xmin, b.ymax))
  if intersect_line_segments line top_side then some (intersect_lines line top_side)
  else if intersect_line_segments line right_side then some (intersect_lines line right_side)
  else if intersect_line_segments line bottom_side then some (intersect_lines line bottom_side)
  else if intersect_line_segments line left_side then some (intersect_lines line left_side)
  else none

/-- The loop state of the waypoint scan in the `shift` branch of
`create_frame` (lines 289-309): the waypoints collected so far, the
`endpoint` variable, the last computed `(delta_x, delta_y)` (only read along
paths on which it has been assigned; initialised to `(0, 0)`), and the far
`waypoint` found at a `break` (if any). -/
structure ShiftScan where
  points_in_frame : List Point
  endpoint : Option Point
  delta : Point
  waypoint : Option Point

/-- The waypoint scan of the `shift` branch of `create_frame` (lines
292-309), iterating over the global path against the unshifted initial
border `b`: a point outside the frame either breaks the loop as the far
`waypoint` (outside even after the maximum shift), is recorded as `endpoint`
when it equals the path's last element, or is appended anyway (inside after
shifting); a point inside the frame is appended. -/
def shift_scan (b : Border) (curr : Point) (move_limit frame_size : ℝ)
    (lastp : Point) : List Point → ShiftScan → ShiftScan
  | [], st => st
  | point :: rest, st =>
    if ¬ point_in_frame b point 0 then
      let delta : Point := (point.1 - curr.1, point.2 - curr.2)
      if |delta.1| > move_limit + frame_size * 0.5 ∨
          |delta.2| > move_limit + frame_size * 0.5 then
        { st with delta := delta, waypoint := some point }
      else if point = lastp then
        shift_scan b curr move_limit frame_size lastp rest
          { st with delta := delta, endpoint := some point }
      else
        shift_scan b curr move_limit frame_size lastp rest
          { st with delta := delta,
                    points_in_frame := st.points_in_frame ++ [point] }
    else
      shift_scan b curr move_limit frame_size lastp rest
        { st with points_in_frame := st.points_in_frame ++ [point] }

/-- The `shift` branch of `create_frame` (lines 273-372): build the initial
frame around the current state, scan the global path, optionally shift the
frame (toward a far waypoint or the goal), compute the endpoint, enlarge the
border when the endpoint is too close to it, and assemble the frame.
Returns `none` along paths where the source raises (`points_in_frame[-1]` or
`[0]` on an empty list, a failed `find_intersection_line_frame`). -/
def create_frame_shift (env : List Obstacle) (room : Room) (path : List Point)
    (curr : Point) (frame_size vsize sfactor : ℝ) : Option Frame :=
  match path.getLast? with
  | none => none
  | some lastp =>
    let xmin := curr.1 - frame_size * 0.5
    let ymin := curr.2 - frame_size * 0.5
    let xmax := curr.1 + frame_size * 0.5
    let ymax := curr.2 + frame_size * 0.5
    let border0 := make_border xmin ymin xmax ymax
    let move_limit := frame_size * 0.25
    let st := shift_scan border0 curr move_limit frame_size lastp path
      ⟨[], none, (0, 0), none⟩
    let branch? : Option ((ℝ × ℝ × ℝ × ℝ) × Border × Point) :=
      match st.waypoint with
      | some w =>
        let lims := move_frame room frame_size vsize sfactor curr
          st.delta.1 st.delta.2 move_limit
        let border := make_border lims.1 lims.2.1 lims.2.2.1 lims.2.2.2
        match st.points_in_frame.getLast? with
        | none => none
        | some lastIn =>
          match find_intersection_line_frame border (lastIn, w) with
          | none => none
          | some ipt =>
            (shift_point_back lastIn ipt 0 (vsize * sfactor)).map
              (fun endpoint => (lims, border, endpoint))
      | none =>
        match st.endpoint with
        | some e =>
          let lims := move_frame room frame_size vsize sfactor curr
            st.delta.1 st.delta.2 move_limit
          some (lims, make_border lims.1 lims.2.1 lims.2.2.1 lims.2.2.2, e)
        | none => some ((xmin, ymin, xmax, ymax), border0, lastp)
    branch?.bind (fun br =>
      let (lims, border, endpoint) := br
      let (xmin, ymin, xmax, ymax) := lims
      let dist := distance_to_border border endpoint
      let (xmin, xmax, border) :=
        if |dist.1| ≤ vsize then
          let move_distance := (vsize - |dist.1|) * sfactor
          if dist.1 ≤ 0 then
            (xmin - move_distance, xmax, make_border (xmin - move_distance) ymin xmax ymax)
          else
            (xmin, xmax + move_distance, make_border xmin ymin (xmax + move_distance) ymax)
        else (xmin, xmax, border)
      let border :=
        if |dist.2| ≤ vsize then
          if dist.2 ≤ 0 then make_border xmin (ymin - (vsize - |dist.2|) * sfactor) xmax ymax
          else make_border xmin ymin xmax (ymax + (vsize - |dist.2|) * sfactor)
        else border
      let stationary := get_stationary_obstacles_in_frame env border
      match st.points_in_frame.getLast? with
      | none => none
      | some lastIn =>
        let waypoints :=
          if endpoint ≠ lastIn then st.points_in_frame ++ [endpoint]
          else st.points_in_frame
        some ⟨border, waypoints, some endpoint, stationary⟩)

/-- `update_frame_with_waypoint(frame, prev_point, point)` (lines 1086-1107):
extend the border on whichever sides are needed to include `point` (by
`veh_size*scale_factor` beyond it), comparing against `prev_point`; returns
the new border and the stationary obstacles found inside it.  (The source's
redundant `ymax_new = ymax` reassignment in the `point[1] < prev_point[1]`
branch is a no-op.) -/
def update_frame_with_waypoint (env : List Obstacle) (vsize sfactor : ℝ)
    (b : Border) (prev_point point : Point) : Border × List Obstacle :=
  let xmax_new := if prev_point.1 < point.1 then point.1 + vsize * sfactor else b.xmax
  let xmin_new := if point.1 < prev_point.1 then point.1 - vsize * sfactor else b.xmin
  let ymax_new := if prev_point.2 < point.2 then point.2 + vsize * sfactor else b.ymax
  let ymin_new := if point.2 < prev_point.2 then point.2 - vsize * sfactor else b.ymin
  let b' := make_border xmin_new ymin_new xmax_new ymax_new
  (b', get_stationary_obstacles_in_frame env b')

/-- The linear scan of lines 1011-1016 tracking the minimum distance so far:
returns the index of the first waypoint realising the running minimum
(the `closest_waypoint` variable itself is never read downstream). -/
def closest_idx_go (start : Point) :
    List Point → ℕ → ℝ → ℕ → ℕ
  | [], _, _, index => index
  | point :: rest, idx, dist, index =>
    let d := distance_between_points point start
    if d < dist then closest_idx_go start rest (idx + 1) d idx
    else closest_idx_go start rest (idx + 1) dist index

/-- Lines 1008-1016 of `get_min_nobs_frame`: find the path index closest to
`start`, the running minimum initialised to
`max(room.width, room.height)`. -/
def closest_idx (room : Room) (path : List Point) (start : Point) : ℕ :=
  closest_idx_go start path 0 (max room.width room.height) 0

/-- The waypoint-absorption loop of `get_min_nobs_frame` (lines 1038-1066):
for each path point, if it is not inside the frame, extend the border via
`update_frame_with_waypoint` (reference point: last absorbed point, or
`start` when none); commit the extension and the waypoint if the extended
frame is obstacle-free, otherwise revert the border and stop; points already
inside the frame are absorbed without extension. -/
def absorb_loop (env : List Obstacle) (vsize sfactor : ℝ) (start : Point) :
    List Point → Border → List Point → Border × List Point
  | [], b, points => (b, points)
  | point :: rest, b, points =>
    if ¬ point_in_frame b point 0 then
      let prev_point := points.getLast?.getD start
      let r := update_frame_with_waypoint env vsize sfactor b prev_point point
      if r.2 ≠ [] then (make_border b.xmin b.ymin b.xmax b.ymax, points)
      else absorb_loop env vsize sfactor start rest r.1 (points ++ [point])
    else absorb_loop env vsize sfactor start rest b (points ++ [point])

/-- `get_min_nobs_frame(start)` (lines 988-1084): seed a square frame of
half-width `veh_size*scale_factor` around `start`; if the path's last point
(the goal) fits in the seed, absorb the whole remaining path and set
`endpoint_frame`; else try one extension to the goal, and if that meets an
obstacle, revert to the seed and absorb waypoints one at a time.  Returns
`none` where the source raises (`global_path[-1]` on an empty path, or the
`RuntimeError` when no waypoint at all was absorbed). -/
def get_min_nobs_frame (env : List Obstacle) (room : Room) (path : List Point)
    (start : Point) (vsize sfactor : ℝ) : Option Frame :=
  match path.getLast? with
  | none => none
  | some point =>
    let xmin := start.1 - vsize * sfactor
    let ymin := start.2 - vsize * sfactor
    let xmax := start.1 + vsize * sfactor
    let ymax := start.2 + vsize * sfactor
    let seed := make_border xmin ymin xmax ymax
    let index := closest_idx room path start
    let result : Border × List Point × Option Point :=
      if ¬ point_in_frame seed point 0 then
        let r := update_frame_with_waypoint env vsize sfactor seed start point
        if r.2 ≠ [] then
          let a := absorb_loop env vsize sfactor start (path.drop index)
            (make_border xmin ymin xmax ymax) []
          (a.1, a.2, none)
        else (r.1, path.drop index, none)
      else (seed, path.drop index, some point)
    if result.2.1 = [] then none
    else some ⟨result.1, result.2.1, result.2.2, []⟩

/-- Fuel bound for the 0.1-step enlargement loops of `scale_up_frame`: the
Python loop runs at most one step past `(hi - lo) * 10` increments, so this
fuel is never exhausted. -/
def incr_fuel (lo hi : ℝ) : ℕ := (⌈(hi - lo) * 10⌉).toNat + 2

/-- The positive-x while loop of `scale_up_frame` (lines 1130-1143): grow
`xmax` in 0.1 steps; on passing the room bound commit the room bound itself
(the source does this without re-checking it for obstacles — it is exactly
the border that already failed the first try); on meeting an obstacle keep
the previous `xmax`. -/
def scale_x_plus_loop (env : List Obstacle) (roomXmax xmin ymin ymax : ℝ) :
    ℕ → ℝ → ℝ
  | 0, xmax => xmax
  | fuel + 1, xmax =>
    let xmax_new := xmax + 0.1
    if xmax_new > roomXmax then roomXmax
    else if get_stationary_obstacles_in_frame env
        (make_border xmin ymin xmax_new ymax) = [] then
      scale_x_plus_loop env roomXmax xmin ymin ymax fuel xmax_new
    else xmax

/-- The positive-x stage of `scale_up_frame` (lines 1118-1143): first try
`xmax` at the room bound; on failure fall back to the 0.1-step loop. -/
def scale_x_plus (env : List Obstacle) (room : Room)
    (xmin ymin xmax ymax : ℝ) : ℝ :=
  if get_stationary_obstacles_in_frame env
      (make_border xmin ymin room.xmax ymax) = [] then room.xmax
  else scale_x_plus_loop env room.xmax xmin ymin ymax
    (incr_fuel xmax room.xmax) xmax

/-- The negative-x while loop of `scale_up_frame` (lines 1152-1162),
mirroring `scale_x_plus_loop`. -/
def scale_x_minus_loop (env : List Obstacle) (roomXmin ymin xmax ymax : ℝ) :
    ℕ → ℝ → ℝ
  | 0, xmin => xmin
  | fuel + 1, xmin =>
    let xmin_new := xmin - 0.1
    if xmin_new < roomXmin then roomXmin
    else if get_stationary_obstacles_in_frame env
        (make_border xmin_new ymin xmax ymax) = [] then
      scale_x_minus_loop env roomXmin ymin xmax ymax fuel xmin_new
    else xmin

/-- The negative-x stage of `scale_up_frame` (lines 1146-1162). -/
def scale_x_minus (env : List Obstacle) (room : Room)
    (xmin ymin xmax ymax : ℝ) : ℝ :=
  if get_stationary_obstacles_in_frame env
      (make_border room.xmin ymin xmax ymax) = [] then room.xmin
  else scale_x_minus_loop env room.xmin ymin xmax ymax
    (incr_fuel room.xmin xmin) xmin

/-- The positive-y while loop of `scale_up_frame` (lines 1171-1181). -/
def scale_y_plus_loop (env : List Obstacle) (roomYmax xmin ymin xmax : ℝ) :
    ℕ → ℝ → ℝ
  | 0, ymax => ymax
  | fuel + 1, ymax =>
    let ymax_new := ymax + 0.1
    if ymax_new > roomYmax then roomYmax
    else if get_stationary_obstacles_in_frame env
        (make_border xmin ymin xmax ymax_new) = [] then
      scale_y_plus_loop env roomYmax xmin ymin xmax fuel ymax_new
    else ymax

/-- The positive-y stage of `scale_up_frame` (lines 1165-1181). -/
def scale_y_plus (env : List Obstacle) (room : Room)
    (xmin ymin xmax ymax : ℝ) : ℝ :=
  if get_stationary_obstacles_in_frame env
      (make_border xmin ymin xmax room.ymax) = [] then room.ymax
  else scale_y_plus_loop env room.ymax xmin ymin xmax
    (incr_fuel ymax room.ymax) ymax

/-- The negative-y while loop of `scale_up_frame` (lines 1190-1200).  This
last loop determines the returned border (`scaled_frame['border']`), so it
returns a `Border`: on the boundary break the source leaves the border at
the just-built candidate (with `ymin_new` already past the room bound)
without rebuilding it from the committed `ymin` — that slip is preserved
here. -/
def scale_y_minus_loop (env : List Obstacle) (roomYmin xmin xmax ymax : ℝ) :
    ℕ → ℝ → Border
  | 0, ymin => make_border xmin ymin xmax ymax
  | fuel + 1, ymin =>
    let ymin_new := ymin - 0.1
    let cand := make_border xmin ymin_new xmax ymax
    if ymin_new < roomYmin then cand
    else if get_stationary_obstacles_in_frame env cand = [] then
      scale_y_minus_loop env roomYmin xmin xmax ymax fuel ymin_new
    else make_border xmin ymin xmax ymax

/-- The negative-y stage of `scale_up_frame` (lines 1184-1200), returning
the final `scaled_frame['border']`. -/
def scale_y_minus (env : List Obstacle) (room : Room)
    (xmin ymin xmax ymax : ℝ) : Border :=
  if get_stationary_obstacles_in_frame env
      (make_border xmin room.ymin xmax ymax) = [] then
    make_border xmin room.ymin xmax ymax
  else scale_y_minus_loop env room.ymin xmin xmax ymax
    (incr_fuel room.ymin ymin) ymin

/-- `list.index(value)` for points: the index of the first occurrence
(the source raises `ValueError` when absent; this total version returns the
list length there, making the subsequent re-scan slice empty). -/
def idxOfP (p : Point) : List Point → ℕ
  | [] => 0
  | q :: rest => if q = p then 0 else idxOfP p rest + 1

/-- The waypoint re-scan of `scale_up_frame` (lines 1205-1213): append
path points that now fall inside the scaled border (skipping points already
among the waypoints), stopping at the first point outside. -/
def rescan_loop (b : Border) : List Point → List Point → List Point
  | [], wps => wps
  | point :: rest, wps =>
    if point_in_frame b point 0 then
      if ¬ point ∈ wps then rescan_loop b rest (wps ++ [point])
      else rescan_loop b rest wps
    else wps

/-- `scale_up_frame(frame)` (lines 1109-1217): enlarge the four border
coordinates one direction at a time (x+, x−, y+, y− in that fixed order,
each starting from the previous direction's committed result), then re-scan
the global path from the last absorbed waypoint for further waypoints inside
the enlarged border.  Returns the final `(border, waypoints)`. -/
def scale_up_frame (env : List Obstacle) (room : Room) (path : List Point)
    (frame : Frame) : Border × List Point :=
  let xmin := frame.border.xmin
  let ymin := frame.border.ymin
  let xmax := frame.border.xmax
  let ymax := frame.border.ymax
  let xmax := scale_x_plus env room xmin ymin xmax ymax
  let xmin := scale_x_minus env room xmin ymin xmax ymax
  let ymax := scale_y_plus env room xmin ymin xmax ymax
  let border := scale_y_minus env room xmin ymin xmax ymax
  let index := idxOfP (frame.waypoints.getLast?.getD (0, 0)) path
  (border, rescan_loop border (path.drop index) frame.waypoints)

/-- The `while True` search of the method-2 corrections (lines 419-425 and
923-929): starting at `count`, find the first waypoint `waypoints[-1-count]`
whose border distances both exceed `veh_size`.  Returns `none` when the
search runs past the front of the list (Python `IndexError`).  The fuel is
the list length, which bounds the admissible values of `count`. -/
def find_far_count (vsize : ℝ) (b : Border) (wps : List Point) :
    ℕ → ℕ → Option ℕ
  | 0, _ => none
  | fuel + 1, count =>
    if wps.length < count + 1 then none
    else
      match wps.get? (wps.length - 1 - count) with
      | none => none
      | some w =>
        let d := distance_to_border b w
        if |d.1| ≤ vsize ∨ |d.2| ≤ vsize then
          find_far_count vsize b wps fuel (count + 1)
        else some count

/-- The method-2 ("move waypoint, keep frame borders") correction of the
`min_nobs` branch of `create_frame` (lines 415-487): when the terminal
waypoint is within `veh_size` of a border edge, walk back to a
sufficiently-distant waypoint, then compute a replacement terminal waypoint
via the slope/arctan construction of lines 436-481 (translated exactly as
written, including the `(x2-x1)/(y2-y1)` slope factors); the replacement
overwrites the last `count` waypoints.  Returns `none` where the source
raises (empty waypoint list, or the backward search running off the list).
Divisions by zero follow Lean's `x / 0 = 0` convention; the configurations
evaluated in this file keep all divisors nonzero except `np.tan(pi/2)`,
where Lean's `Real.tan (pi/2) = 0` makes `l2 = 0` while Python's float
`np.tan(np.pi/2) ~ 1.6e16` makes `l2 ~ 2.2e-17` — the same outcome up to
rounding. -/
def min_nobs_correction (vsize sfactor : ℝ) (b : Border) (wps : List Point) :
    Option (List Point) :=
  match wps.getLast? with
  | none => none
  | some last =>
    let dist0 := distance_to_border b last
    if |dist0.1| ≤ vsize ∨ |dist0.2| ≤ vsize then
      match find_far_count vsize b wps wps.length 1 with
      | none => none
      | some count =>
        match wps.get? (wps.length - 1 - count) with
        | none => none
        | some w0 =>
          let x1 := w0.1
          let y1 := w0.2
          let x2 := last.1
          let y2 := last.2
          let dist := distance_to_border b last
          let nwx? : Option Point :=
            if |dist.1| ≤ vsize then
              let x3 := if dist.1 ≤ 0 then b.xmin else b.xmax
              let y3 := if y2 = y1 then y1 else (x3 - x1) * ((x2 - x1) / (y2 - y1)) + y1
              let angle := atan2 dist.1 (y3 - y2)
              let l2 := vsize * sfactor / Real.tan angle
              let nwy := if y2 ≤ y3 then y3 - l2 else y3 + l2
              some ((nwy - y1) * ((y2 - y1) / (x2 - x1)) + x1, nwy)
            else none
          let nw? : Option Point :=
            if |dist.2| ≤ vsize then
              let y3 := if dist.2 ≤ 0 then b.ymin else b.ymax
              let x3 := if x2 = x1 then x1 else (y3 - y1) * ((y2 - y1) / (x2 - x1)) + x1
              let angle := atan2 dist.2 (y3 - y2)
              let l2 := vsize * sfactor / Real.tan angle
              let nwx := if x2 ≤ x3 then x3 - l2 else x3 + l2
              some (nwx, (nwx - x1) * ((x2 - x1) / (y2 - y1)) + y1)
            else nwx?
          nw?.map (fun nw => wps.take (wps.length - count) ++ [nw])
    else some wps

/-- The method-2 correction of `create_next_frame` (lines 918-967): same
outer structure as `min_nobs_correction`, but the replacement waypoint is
placed directly at `desired_distance = veh_size*scale_factor` from the
offending border edge and projected onto the waypoint line (lines 937-963). -/
def next_frame_correction (vsize sfactor : ℝ) (b : Border)
    (wps : List Point) : Option (List Point) :=
  match wps.getLast? with
  | none => none
  | some last =>
    let dist0 := distance_to_border b last
    if |dist0.1| ≤ vsize ∨ |dist0.2| ≤ vsize then
      match find_far_count vsize b wps wps.length 1 with
      | none => none
      | some count =>
        match wps.get? (wps.length - 1 - count) with
        | none => none
        | some w0 =>
          let x1 := w0.1
          let y1 := w0.2
          let x2 := last.1
          let y2 := last.2
          let dist := distance_to_border b last
          let desired_distance := vsize * sfactor
          let nwx? : Option Point :=
            if |dist.1| ≤ vsize then
              let nwx := if dist.1 ≤ 0 then b.xmin + desired_distance
                         else b.xmax - desired_distance
              let nwy := if y1 = y2 then y1 else (nwx - x1) * ((y2 - y1) / (x2 - x1)) + y1
              some (nwx, nwy)
            else none
          let nw? : Option Point :=
            if |dist.2| ≤ vsize then
              let nwy := if dist.2 ≤ 0 then b.ymin + desired_distance
                         else b.ymax - desired_distance
              let nwx := if x1 = x2 then x1 else (nwy - y1) * ((x2 - x1) / (y2 - y1)) + x1
              some (nwx, nwy)
            else nwx?
          nw?.map (fun nw => wps.take (wps.length - count) ++ [nw])
    else some wps

/-- The `min_nobs` branch of `create_frame` (lines 375-503): build the
initial frame with `get_min_nobs_frame`, scale it up, apply the method-2
reachability correction, recompute the stationary obstacles, and set
`endpoint_frame` to the final last waypoint.  (The eager `next_frame`
computation of line 503 is stored on the engine, not in the returned frame,
and is not part of this value.) -/
def create_frame_min_nobs (env : List Obstacle) (room : Room)
    (path : List Point) (start : Point) (vsize sfactor : ℝ) : Option Frame :=
  (get_min_nobs_frame env room path start vsize sfactor).bind (fun f =>
    let su := scale_up_frame env room path f
    (min_nobs_correction vsize sfactor su.1 su.2).map (fun wps =>
      { border := su.1, waypoints := wps, endpoint := wps.getLast?,
        stationary_obstacles := get_stationary_obstacles_in_frame env su.1 }))

/-- `check_frame` for `frame['type'] == 'min_nobs'` (lines 530-553): while
the *goal* is not inside the frame border, the frame is invalid once 99% of
the straight-line approach distance is covered, or once the current position
lies inside the next frame (margin `veh_size`); otherwise the frame stays
valid.  `point_in_frame(..., frame=None)` falls back to the active frame,
as in the source.  Frames reaching the validity monitor always carry
`endpoint_frame` and a nonempty waypoint list; the `getD` defaults are for
totality only. -/
def check_frame_min_nobs (vsize : ℝ) (goal curr : Point) (frame : Frame)
    (next_frame : Option Frame) : Bool :=
  let percentage : ℝ := 99
  if ¬ point_in_frame frame.border goal 0 then
    let init_dist := distance_between_points (frame.waypoints.head?.getD (0, 0))
      (frame.endpoint.getD (0, 0))
    let curr_dist := distance_between_points curr (frame.endpoint.getD (0, 0))
    if curr_dist < init_dist * (1 - percentage / 100) then false
    else if point_in_frame ((next_frame.map Frame.border).getD frame.border)
        curr vsize then false
    else true
  else true

/-- `stop_criterium(current_time, update_time)` (lines 200-207): when the
frame's endpoint equals the goal state and the local sub-problem's stop
criterion fires, return `True`; when the endpoint differs, return `False`;
in the remaining case the Python function falls through and implicitly
returns `None` (modelled as `none`). -/
def stop_criterium (frame : Frame) (goal : Point) (local_stop : Bool) :
    Option Bool :=
  if frame.endpoint = some goal then
    (if local_stop then some true else none)
  else some false

/-- `shape.rotate(orientation, checkpoint)`.  Modelled from the spec:
rotate the checkpoint by the shape's orientation ("rotate/translate to
world position"). -/
def rotate_point (θ : ℝ) (p : Point) : Point :=
  (Real.cos θ * p.1 - Real.sin θ * p.2,
    Real.sin θ * p.1 + Real.cos θ * p.2)

/-- The obstacle checkpoints gathered at lines 678-692: for a rectangle, the
vertices from `shape.get_checkpoints()[0]` (modelled from the spec as the
four bounding-box corners around the shape's center); for a circle, the four
corners of its bounding square from `get_canvas_limits`, with the center
`[0, 0]` inserted first. -/
def Obstacle.checkpoints (ob : Obstacle) : List Point :=
  match ob.shape with
  | .rectangle w h _ =>
    [(-(w / 2), -(h / 2)), (-(w / 2), h / 2), (w / 2, h / 2), (w / 2, -(h / 2))]
  | .circle r => [(0, 0), (-r, -r), (-r, r), (r, r), (r, -r)]

/-- Lines 698-705: rotate a checkpoint by the shape orientation when the
shape has one (rectangles; circles have no `orientation` attribute) and
translate it by the obstacle position. -/
def world_vertex (ob : Obstacle) (chck : Point) : Point :=
  match ob.shape with
  | .rectangle _ _ o =>
    let v := rotate_point o chck
    (v.1 + ob.posx, v.2 + ob.posy)
  | .circle _ => (chck.1 + ob.posx, chck.2 + ob.posy)

/-- The moving-obstacle test of line 676: the last velocity sample is not
identically zero. -/
def Obstacle.isMoving (ob : Obstacle) : Bool :=
  ¬ (ob.velx = 0 ∧ ob.vely = 0)

/-- The checkpoint loop of `get_moving_obstacles_in_frame` (lines 698-725),
over the world-coordinate vertices, threading the obstacle's avoid flag and
the running `obs_change`: a vertex inside the swept frame sets the flag and
*overwrites* `obs_change` with the flip status, then breaks; a vertex
outside clears a set flag and records a change. -/
def chck_loop (b : Border) (motion_time : ℝ) (vel : Point)
    (avoid_old : Bool) : List Point → Bool → Bool → Bool × Bool
  | [], avoid, oc => (avoid, oc)
  | v :: rest, avoid, oc =>
    if point_in_frame_time b motion_time v vel then
      (true, if true ≠ avoid_old then true else false)
    else
      if avoid ≠ false then chck_loop b motion_time vel avoid_old rest false true
      else chck_loop b motion_time vel avoid_old rest avoid oc

/-- The swept-volume relevance test: some checkpoint's constant-velocity
trajectory sample lies inside the border (the test the source applies to
each checkpoint at line 707). -/
def obstacle_hit (b : Border) (motion_time : ℝ) (ob : Obstacle) : Bool :=
  (ob.checkpoints.map (world_vertex ob)).any
    (fun v => point_in_frame_time b motion_time v (ob.velx, ob.vely))

/-- One iteration of the obstacle loop of `get_moving_obstacles_in_frame`
(lines 669-725), on the accumulator (updated obstacles so far,
`moving_obstacles` so far, `obs_change`): save `avoid_old`, skip obstacles
with zero current velocity, and otherwise run the checkpoint loop and append
the obstacle (with its post-loop flag, as the Python list aliases the
mutated object) to both lists. -/
def moving_step (b : Border) (motion_time : ℝ)
    (acc : List Obstacle × List Obstacle × Bool) (ob : Obstacle) :
    List Obstacle × List Obstacle × Bool :=
  let avoid_old := ob.avoid
  if ob.isMoving then
    let r := chck_loop b motion_time (ob.velx, ob.vely) avoid_old
      (ob.checkpoints.map (world_vertex ob)) ob.avoid acc.2.2
    let ob' := { ob with avoid := r.1 }
    (acc.1 ++ [ob'], acc.2.1 ++ [ob'], r.2)
  else (acc.1 ++ [ob], acc.2.1, acc.2.2)

/-- `get_moving_obstacles_in_frame()` (lines 662-740): scan all environment
obstacles with `moving_step`; finally, when a previous moving-obstacle list
exists, a count difference forces `obs_change = True` (lines 735-737).
Returns the updated environment (the source mutates the obstacles in
place), the `moving_obstacles` list, and `obs_change`. -/
def get_moving_obstacles_in_frame (env : List Obstacle)
    (prev : Option (List Obstacle)) (b : Border) (motion_time : ℝ) :
    List Obstacle × List Obstacle × Bool :=
  let res := env.foldl (moving_step b motion_time) ([], [], false)
  let oc := match prev with
    | some l => if l.length ≠ res.2.1.length then true else res.2.2
    | none => res.2.2
  (res.1, res.2.1, oc)

/-! ### Concrete instances used by the claim theorems -/

/-- A min-nobs frame whose `endpoint_frame` equals the goal `(2, 0.5)` while
the goal lies outside the border `[0,1] x [0,1]`. -/
def frameC7 : Frame :=
  ⟨⟨0, 0, 1, 1⟩, [((0.5 : ℝ), (0.5 : ℝ)), ((2 : ℝ), (0.5 : ℝ))],
    some ((2 : ℝ), (0.5 : ℝ)), []⟩

/-- A global path along the x-axis whose second waypoint `(1.5, 0)` lies
outside the initial shift frame but within shifting range, followed by
points back inside the frame and a goal inside the frame. -/
def pathC2 : List Point :=
  [((0 : ℝ), (0 : ℝ)), ((1.5 : ℝ), (0 : ℝ)), ((1 : ℝ), (0 : ℝ)),
    ((0.5 : ℝ), (0 : ℝ))]

/-- The per-obstacle effect of one call of the moving-obstacle query: a
moving obstacle's avoid flag is refreshed to the swept-frame test, other
obstacles are untouched. -/
def refresh_avoid (b : Border) (mt : ℝ) (ob : Obstacle) : Obstacle :=
  if ob.isMoving then { ob with avoid := obstacle_hit b mt ob } else ob

/-- A moving square obstacle overlapping the unit frame, not avoided
before the call. -/
def obA : Obstacle :=
  ⟨.rectangle (1 / 5) (1 / 5) 0, 1 / 2, 1 / 2, 1 / 10, 0, none, false⟩

/-- A moving square obstacle overlapping the unit frame, already avoided
before the call. -/
def obB : Obstacle :=
  ⟨.rectangle (1 / 5) (1 / 5) 0, 1 / 2, 1 / 2, 1 / 10, 0, none, true⟩

/-- A moving square obstacle far outside the unit frame and moving away. -/
def obC4 : Obstacle :=
  ⟨.rectangle (1 / 5) (1 / 5) 0, 100, 100, 1, 0, none, false⟩

/-- A 2 x 2 room centered at the origin (outer limits `[-1,1] x [-1,1]`). -/
def roomC1 : Room := ⟨2, 2, 0, 0⟩

/-- A stationary rectangle obstacle hugging the room's right wall: bounding
box `[0.97, 1] x [-0.1, 0.1]`. -/
def obC1 : Obstacle :=
  ⟨.rectangle (3 / 100) (1 / 5) 0, 197 / 200, 0, 0, 0, none, false⟩

/-- The environment for claim C1. -/
def envC1 : List Obstacle := [obC1]

/-- A short global path near the origin. -/
def pathC1 : List Point := [((0 : ℝ), (0 : ℝ)), ((1 / 10 : ℝ), (0 : ℝ))]

/-! ### Helper evaluation lemmas -/

/-- Closed form of `distance_to_border` for a border with distinct x- and
y-limits: the componentwise choice between the signed distances to the
min- and max-edges. -/
theorem distance_to_border_eval (b : Border) (p : Point)
    (hx : b.xmin ≠ b.xmax) (hy : b.ymin ≠ b.ymax) :
    distance_to_border b p =
      (if |p.1 - b.xmin| < |p.1 - b.xmax| then -|p.1 - b.xmin| else |p.1 - b.xmax|,
        if |p.2 - b.ymax| < |p.2 - b.ymin| then |p.2 - b.ymax| else -|p.2 - b.ymin|) := by
  have hH : |b.ymax - b.ymin| ≠ 0 := abs_ne_zero.mpr (sub_ne_zero.mpr (Ne.symm hy))
  have hW : |b.xmax - b.xmin| ≠ 0 := abs_ne_zero.mpr (sub_ne_zero.mpr (Ne.symm hx))
  have hH2 : |b.ymin - b.ymax| ≠ 0 := abs_ne_zero.mpr (sub_ne_zero.mpr hy)
  have hW2 : |b.xmin - b.xmax| ≠ 0 := abs_ne_zero.mpr (sub_ne_zero.mpr hx)
  have e12 : -|(b.ymax - b.ymin) * p.1 - (b.xmin - b.xmin) * p.2 + b.xmin * b.ymin - b.ymax * b.xmin| /
      Real.sqrt ((b.ymax - b.ymin) ^ 2 + (b.xmin - b.xmin) ^ 2) = -|p.1 - b.xmin| := by
    rw [show (b.ymax - b.ymin) * p.1 - (b.xmin - b.xmin) * p.2 + b.xmin * b.ymin - b.ymax * b.xmin =
        (b.ymax - b.ymin) * (p.1 - b.xmin) from by ring,
      show (b.ymax - b.ymin) ^ 2 + (b.xmin - b.xmin) ^ 2 = (b.ymax - b.ymin) ^ 2 from by ring,
      Real.sqrt_sq_eq_abs, abs_mul, neg_div, mul_div_cancel_left₀ _ hH]
  have e34 : |(b.ymin - b.ymax) * p.1 - (b.xmax - b.xmax) * p.2 + b.xmax * b.ymax - b.ymin * b.xmax| /
      Real.sqrt ((b.ymin - b.ymax) ^ 2 + (b.xmax - b.xmax) ^ 2) = |p.1 - b.xmax| := by
    rw [show (b.ymin - b.ymax) * p.1 - (b.xmax - b.xmax) * p.2 + b.xmax * b.ymax - b.ymin * b.xmax =
        (b.ymin - b.ymax) * (p.1 - b.xmax) from by ring,
      show (b.ymin - b.ymax) ^ 2 + (b.xmax - b.xmax) ^ 2 = (b.ymin - b.ymax) ^ 2 from by ring,
      Real.sqrt_sq_eq_abs, abs_mul, mul_div_cancel_left₀ _ hH2]
  have e23 : |(b.ymax - b.ymax) * p.1 - (b.xmax - b.xmin) * p.2 + b.xmax * b.ymax - b.ymax * b.xmin| /
      Real.sqrt ((b.ymax - b.ymax) ^ 2 + (b.xmax - b.xmin) ^ 2) = |p.2 - b.ymax| := by
    rw [show (b.ymax - b.ymax) * p.1 - (b.xmax - b.xmin) * p.2 + b.xmax * b.ymax - b.ymax * b.xmin =
        (b.xmax - b.xmin) * (b.ymax - p.2) from by ring,
      show (b.ymax - b.ymax) ^ 2 + (b.xmax - b.xmin) ^ 2 = (b.xmax - b.xmin) ^ 2 from by ring,
      Real.sqrt_sq_eq_abs, abs_mul, mul_div_cancel_left₀ _ hW, abs_sub_comm]
  have e41 : -|(b.ymin - b.ymin) * p.1 - (b.xmin - b.xmax) * p.2 + b.xmin * b.ymin - b.ymin * b.xmax| /
      Real.sqrt ((b.ymin - b.ymin) ^ 2 + (b.xmin - b.xmax) ^ 2) = -|p.2 - b.ymin| := by
    rw [show (b.ymin - b.ymin) * p.1 - (b.xmin - b.xmax) * p.2 + b.xmin * b.ymin - b.ymin * b.xmax =
        (b.xmin - b.xmax) * (b.ymin - p.2) from by ring,
      show (b.ymin - b.ymin) ^ 2 + (b.xmin - b.xmax) ^ 2 = (b.xmin - b.xmax) ^ 2 from by ring,
      Real.sqrt_sq_eq_abs, abs_mul, neg_div, mul_div_cancel_left₀ _ hW2, abs_sub_comm]
  simp only [distance_to_border]
  rw [e12, e34, e23, e41]
  simp only [abs_abs, abs_neg]

/-- `distance_between_points` of two points on a common horizontal line. -/
theorem distance_between_points_horiz (p q : Point) (h : p.2 = q.2) :
    distance_between_points p q = |p.1 - q.1| := by
  rw [distance_between_points, h, sub_self,
    show (p.1 - q.1) ^ 2 + (0 : ℝ) ^ 2 = (p.1 - q.1) ^ 2 from by ring,
    Real.sqrt_sq_eq_abs]

/-! ### Claim C10 -/

/-- Claim C10: the multiframe stop criterion never signals arrival before
the terminal frame — `stop_criterium` returns `True` only when the active
frame's endpoint equals the global goal state and the local sub-problem's
stop criterion also fires, and in every control step where the endpoint
differs from the goal it returns the falsy `False`.  (When the endpoint
equals the goal but the local criterion does not fire, the source falls
through and returns the falsy `None`.) -/
theorem C10_stop_criterium_only_at_goal (frame : Frame) (goal : Point)
    (ls : Bool) :
    (stop_criterium frame goal ls = some true →
      frame.endpoint = some goal ∧ ls = true) ∧
    (frame.endpoint ≠ some goal → stop_criterium frame goal ls = some false) := by
  refine ⟨fun h => ?_, fun he => ?_⟩
  · by_cases he : frame.endpoint = some goal
    · refine ⟨he, ?_⟩
      cases hl : ls with
      | false => simp [stop_criterium, he, hl] at h
      | true => rfl
    · simp [stop_criterium, he] at h
  · simp [stop_criterium, he]

/-- Witness for C10 at a concrete frame whose endpoint differs from the
goal: the criterion returns `False`. -/
theorem C10_stop_criterium_only_at_goal_witness :
    stop_criterium ⟨⟨0, 0, 1, 1⟩, [], some ((0 : ℝ), (0 : ℝ)), []⟩
      ((1 : ℝ), (1 : ℝ)) true = some false :=
  (C10_stop_criterium_only_at_goal _ _ _).2 (by norm_num)

/-! ### Claim C9 -/

/-- Claim C9: for every call `shift_point_back(start, end, distance=d)` with
`d > 0` in which the required move-back distance is at least the segment
length, the post-shift length is clamped to zero, so the function returns
the start point without raising an error. -/
theorem C9_shift_point_back_clamps (s e : Point) (d : ℝ) (h0 : 0 < d)
    (h : seg_length s e ≤ move_back s e d) :
    shift_point_back s e 0 d = some s := by
  have hd : d ≠ 0 := ne_of_gt h0
  rcases lt_or_eq_of_le h with hlt | heq
  · simp [shift_point_back, hd, hlt]
  · simp [shift_point_back, hd, heq]

/-- Witness for C9 at the concrete call with `start = (0,0)`, `end = (1,0)`
and `distance = 2 ≥ 1 = segment length`. -/
theorem C9_shift_point_back_clamps_witness :
    0 < (2 : ℝ) ∧
      seg_length ((0 : ℝ), (0 : ℝ)) ((1 : ℝ), (0 : ℝ)) ≤
        move_back ((0 : ℝ), (0 : ℝ)) ((1 : ℝ), (0 : ℝ)) 2 ∧
      shift_point_back ((0 : ℝ), (0 : ℝ)) ((1 : ℝ), (0 : ℝ)) 0 2 =
        some ((0 : ℝ), (0 : ℝ)) := by
  have hlen : seg_length ((0 : ℝ), (0 : ℝ)) ((1 : ℝ), (0 : ℝ)) = 1 := by
    simp [seg_length]
  have hmb : move_back ((0 : ℝ), (0 : ℝ)) ((1 : ℝ), (0 : ℝ)) 2 = 2 := by
    simp [move_back]
  refine ⟨by norm_num, by rw [hlen, hmb]; norm_num,
    C9_shift_point_back_clamps _ _ _ (by norm_num)
      (by rw [hlen, hmb]; norm_num)⟩

/-! ### Claim C7 -/

/-- Counterexample to claim C7: the min-nobs `check_frame` tests whether the
*goal lies inside the frame border* (line 538), not whether the endpoint
equals the goal.  Here the endpoint equals the goal, yet with the goal
outside the border and the vehicle sitting on the endpoint the 99%-distance
heuristic fires and the frame is declared invalid. -/
theorem C7_counterexample :
    frameC7.endpoint = some ((2 : ℝ), (0.5 : ℝ)) ∧
      check_frame_min_nobs 0.3 ((2 : ℝ), (0.5 : ℝ)) ((2 : ℝ), (0.5 : ℝ))
        frameC7 none = false := by
  refine ⟨rfl, ?_⟩
  have h1 : distance_between_points ((1 / 2 : ℝ), (1 / 2 : ℝ)) ((2 : ℝ), (1 / 2 : ℝ)) = 3 / 2 := by
    rw [distance_between_points_horiz ((1 / 2 : ℝ), (1 / 2 : ℝ)) ((2 : ℝ), (1 / 2 : ℝ)) rfl]
    norm_num
  have h2 : distance_between_points ((2 : ℝ), (1 / 2 : ℝ)) ((2 : ℝ), (1 / 2 : ℝ)) = 0 := by
    rw [distance_between_points_horiz ((2 : ℝ), (1 / 2 : ℝ)) ((2 : ℝ), (1 / 2 : ℝ)) rfl]
    norm_num
  norm_num [check_frame_min_nobs, frameC7, point_in_frame, h1, h2]

/-- Claim C7 amended: for the min-nobs strategy, `check_frame` returns valid
unconditionally once the *goal lies inside the active frame's border*
(which is what line 538 tests), regardless of the vehicle position, the
distance heuristic, or the next-frame entry test; when the goal is outside
the border this holds even if the frame's endpoint equals the goal. -/
theorem C7_goal_in_frame_always_valid (vsize : ℝ) (goal curr : Point)
    (frame : Frame) (next_frame : Option Frame)
    (h : point_in_frame frame.border goal 0 = true) :
    check_frame_min_nobs vsize goal curr frame next_frame = true := by
  simp [check_frame_min_nobs, h]

/-- Witness for the amended C7: with the goal inside the border, the frame
stays valid even when the vehicle is far outside it. -/
theorem C7_goal_in_frame_always_valid_witness :
    check_frame_min_nobs 0.3 ((0.5 : ℝ), (0.5 : ℝ)) ((100 : ℝ), (100 : ℝ))
      frameC7 none = true :=
  C7_goal_in_frame_always_valid _ _ _ _ _
    (by norm_num [point_in_frame, frameC7])

/-- Border distances of the point `(1.9, 1)` inside `[0,2] x [0,2]`:
`0.1` to the x-max edge, `-1` to the y-min edge (stated in the fraction
normal form that `norm_num` produces). -/
theorem dist_b02_19 :
    distance_to_border ⟨0, 0, 2, 2⟩ ((19 / 10 : ℝ), (1 : ℝ)) = (1 / 10, -1) := by
  rw [distance_to_border_eval ⟨0, 0, 2, 2⟩ ((19 / 10 : ℝ), (1 : ℝ)) (by norm_num) (by norm_num)]
  norm_num [abs_of_nonneg, abs_of_nonpos]

/-- Border distances of the point `(1, 1)` inside `[0,2] x [0,2]`. -/
theorem dist_b02_11 :
    distance_to_border ⟨0, 0, 2, 2⟩ ((1 : ℝ), (1 : ℝ)) = (1, -1) := by
  rw [distance_to_border_eval ⟨0, 0, 2, 2⟩ ((1 : ℝ), (1 : ℝ)) (by norm_num) (by norm_num)]
  norm_num [abs_of_nonneg, abs_of_nonpos]

/-- Border distances of the point `(1.68, 1)` inside `[0,2] x [0,2]`. -/
theorem dist_b02_168 :
    distance_to_border ⟨0, 0, 2, 2⟩ ((42 / 25 : ℝ), (1 : ℝ)) = (8 / 25, -1) := by
  rw [distance_to_border_eval ⟨0, 0, 2, 2⟩ ((42 / 25 : ℝ), (1 : ℝ)) (by norm_num) (by norm_num)]
  norm_num [abs_of_nonneg, abs_of_nonpos]

/-! ### Claim C5 -/

/-- Counterexample to claim C5: the clearance threshold the code actually
uses is `veh_size` itself — the circle radius, with no 1.2 factor (and for
rectangles the full `max(width, height)`, not the larger half-dimension).
A terminal waypoint `0.32` from the x-max border is inside the claimed
envelope `0.3 * 1.2 = 0.36`, yet the `create_next_frame` reachability
correction leaves it untouched because `0.32 > veh_size = 0.3`. -/
theorem C5_counterexample :
    next_frame_correction (veh_size (Shape.circle 0.3)) scale_factor
        ⟨0, 0, 2, 2⟩ [((1 : ℝ), (1 : ℝ)), ((1.68 : ℝ), (1 : ℝ))] =
      some [((1 : ℝ), (1 : ℝ)), ((1.68 : ℝ), (1 : ℝ))] ∧
    |(distance_to_border ⟨0, 0, 2, 2⟩ ((1.68 : ℝ), (1 : ℝ))).1| ≤
      spec_envelope (Shape.circle 0.3) ∧
    spec_envelope (Shape.circle 0.3) ≠ veh_size (Shape.circle 0.3) := by
  refine ⟨?_, ?_, ?_⟩
  · norm_num [next_frame_correction, List.getLast?, dist_b02_168, veh_size,
      scale_factor, abs_of_nonneg, abs_of_nonpos, -Prod.mk_one_one]
  · norm_num [dist_b02_168, spec_envelope, abs_of_nonneg]
  · norm_num [spec_envelope, veh_size]

/-- Claim C5 amended: the clearance comparisons of the reachability
correction use `veh_size` itself as the threshold (circle radius, or the
full `max(width, height)` for rectangles) — a terminal waypoint farther than
`veh_size` from both border axes is left unchanged; the fixed factor 1.2
enters only the applied correction, which places the relocated waypoint at
exactly `veh_size * scale_factor` from the offending border edge. -/
theorem C5_amended_threshold (vsize sfactor : ℝ) (b : Border)
    (wps : List Point) (last : Point) (hlast : wps.getLast? = some last)
    (h1 : vsize < |(distance_to_border b last).1|)
    (h2 : vsize < |(distance_to_border b last).2|) :
    next_frame_correction vsize sfactor b wps = some wps ∧
    next_frame_correction (veh_size (Shape.circle 0.3)) scale_factor
        ⟨0, 0, 2, 2⟩ [((1 : ℝ), (1 : ℝ)), ((1.9 : ℝ), (1 : ℝ))] =
      some [((1 : ℝ), (1 : ℝ)), ((1.64 : ℝ), (1 : ℝ))] ∧
    (2 : ℝ) - 1.64 = veh_size (Shape.circle 0.3) * scale_factor := by
  refine ⟨?_, ?_, ?_⟩
  · simp only [next_frame_correction, hlast]
    rw [if_neg (by push_neg; exact ⟨h1, h2⟩)]
  · norm_num [next_frame_correction, List.getLast?, dist_b02_19, veh_size,
      scale_factor, find_far_count, dist_b02_11, abs_of_nonneg, abs_of_nonpos,
      -Prod.mk_one_one]
  · norm_num [veh_size, scale_factor]

/-- Witness for the amended C5 at a waypoint well inside the border: no
correction happens. -/
theorem C5_amended_threshold_witness :
    next_frame_correction 1 1.2 ⟨0, 0, 4, 4⟩ [((2 : ℝ), (2 : ℝ))] =
      some [((2 : ℝ), (2 : ℝ))] := by
  have hd : distance_to_border ⟨0, 0, 4, 4⟩ ((2 : ℝ), (2 : ℝ)) = (2, -2) := by
    rw [distance_to_border_eval ⟨0, 0, 4, 4⟩ ((2 : ℝ), (2 : ℝ)) (by norm_num) (by norm_num)]
    norm_num [abs_of_nonneg, abs_of_nonpos]
  exact (C5_amended_threshold 1 1.2 ⟨0, 0, 4, 4⟩ [((2 : ℝ), (2 : ℝ))]
    ((2 : ℝ), (2 : ℝ)) rfl (by rw [hd]; norm_num)
    (by rw [hd]; norm_num [abs_of_nonpos])).1

/-! ### Claim C6 -/

/-- `atan2` of a positive number over zero is `pi/2`. -/
theorem atan2_pos_zero (y : ℝ) (hy : 0 < y) : atan2 y 0 = Real.pi / 2 := by
  simp [atan2, hy, lt_irrefl]

/-- Claim C6 (code bug): the spec's scenario — terminal waypoint `(1.9, 1)`
exactly `0.1` from the x-max border of `[0,2] x [0,2]`, `vehicle_envelope =
veh_size = 0.3`, previous waypoint `(1, 1)` — run through the
"move waypoint, keep border" correction of `create_frame` (lines 415-487).
The source's own comment (lines 448-450) says the new waypoint is "the point
on the waypoint_line, for which the distance to the border is
`self.veh_size*self.scale_factor`", i.e. `0.36`, and the sibling
implementation in `create_next_frame` (lines 942-952) indeed places it at
`x = 2 - 0.36 = 1.64`.  The `create_frame` version instead computes
`angle = arctan2(0.1, 0) = pi/2` for this horizontal waypoint line and
divides by `tan(pi/2)` (`0` in exact arithmetic, `~1.6e16` in floats), so
the "corrected" waypoint collapses onto the previous waypoint `(1, 1)`,
whose border distance is `1`, not `0.36`. -/
theorem C6_min_nobs_correction_bug :
    min_nobs_correction 0.3 1.2 ⟨0, 0, 2, 2⟩
        [((1 : ℝ), (1 : ℝ)), ((1.9 : ℝ), (1 : ℝ))] =
      some [((1 : ℝ), (1 : ℝ)), ((1 : ℝ), (1 : ℝ))] ∧
    (distance_to_border ⟨0, 0, 2, 2⟩ ((1 : ℝ), (1 : ℝ))).1 = 1 ∧
    (0.3 : ℝ) * 1.2 ≠ 1 := by
  have hangle : atan2 ((1 : ℝ) / 10) 0 = Real.pi / 2 :=
    atan2_pos_zero _ (by norm_num)
  refine ⟨?_, by norm_num [dist_b02_11, -Prod.mk_one_one], by norm_num⟩
  norm_num [min_nobs_correction, List.getLast?, dist_b02_19, dist_b02_11,
    find_far_count, abs_of_nonneg, abs_of_nonpos, hangle,
    Real.tan_pi_div_two, -Prod.mk_one_one]

/-! ### Claim C2 -/

/-- Border distances of `(0.5, 0)` inside `[-1.25, 1.25]^2`. -/
theorem dist_b125_05 :
    distance_to_border ⟨-(5 / 4), -(5 / 4), 5 / 4, 5 / 4⟩ ((1 / 2 : ℝ), (0 : ℝ)) =
      (3 / 4, -(5 / 4)) := by
  rw [distance_to_border_eval ⟨-(5 / 4), -(5 / 4), 5 / 4, 5 / 4⟩
    ((1 / 2 : ℝ), (0 : ℝ)) (by norm_num) (by norm_num)]
  norm_num [abs_of_nonneg, abs_of_nonpos]

/-- Counterexample to claim C2: the shift builder appends `(1.5, 0)` to
`points_in_frame` because it would fit after a shift (line 307), but since
no far waypoint and no out-of-frame goal ever triggers a shift, the frame is
never moved — the committed frame keeps the waypoint `(1.5, 0)`, which lies
outside the final border `[-1.25, 1.25]^2`. -/
theorem C2_counterexample :
    create_frame_shift [] ⟨10, 10, 0, 0⟩ pathC2 ((0 : ℝ), (0 : ℝ)) 2.5 0.3 1.2 =
      some ⟨⟨-1.25, -1.25, 1.25, 1.25⟩, pathC2, some ((0.5 : ℝ), (0 : ℝ)), []⟩ ∧
    ((1.5 : ℝ), (0 : ℝ)) ∈ pathC2 ∧
    point_in_frame ⟨-1.25, -1.25, 1.25, 1.25⟩ ((1.5 : ℝ), (0 : ℝ)) 0 = false := by
  refine ⟨?_, by norm_num [pathC2], by norm_num [point_in_frame]⟩
  norm_num [create_frame_shift, pathC2, shift_scan, make_border,
    point_in_frame, List.getLast?, dist_b125_05,
    get_stationary_obstacles_in_frame, abs_of_nonneg, abs_of_nonpos,
    -Prod.mk_one_one, -Prod.mk_zero_zero]

/-- Claim C2 amended: full-frame waypoint containment fails (shift frames
keep waypoints appended in anticipation of a shift that never happens, and
the min-nobs fast paths absorb whole path tails after testing only the
goal), but it does hold step-wise for min-nobs absorption: whenever the
reference point lies inside the current border, the border committed by
`update_frame_with_waypoint` contains the newly absorbed waypoint. -/
theorem C2_amended_absorption_containment (env : List Obstacle)
    (vsize sfactor : ℝ) (b : Border) (prev point : Point)
    (hm : 0 ≤ vsize * sfactor)
    (hprev : point_in_frame b prev 0 = true) :
    point_in_frame (update_frame_with_waypoint env vsize sfactor b prev point).1
      point 0 = true := by
  simp only [update_frame_with_waypoint, make_border, point_in_frame,
    decide_eq_true_eq, add_zero, sub_zero] at hprev ⊢
  obtain ⟨⟨hx1, hx2⟩, hy1, hy2⟩ := hprev
  split_ifs <;>
    exact ⟨⟨by linarith, by linarith⟩, by linarith, by linarith⟩

/-- Witness for the amended C2 at a concrete absorption step. -/
theorem C2_amended_absorption_containment_witness :
    point_in_frame (update_frame_with_waypoint [] 0.3 1.2 ⟨0, 0, 1, 1⟩
      ((0.5 : ℝ), (0.5 : ℝ)) ((2 : ℝ), (2 : ℝ))).1 ((2 : ℝ), (2 : ℝ)) 0 = true :=
  C2_amended_absorption_containment [] 0.3 1.2 ⟨0, 0, 1, 1⟩ _ _
    (by norm_num) (by norm_num [point_in_frame])

/-! ### Lemmas on the moving-obstacle query -/

/-- The checkpoint loop's final avoid flag: for any initial flag, it is true
iff some vertex lies in the swept frame, except that an empty vertex list
leaves the initial flag. -/
theorem chck_loop_fst (b : Border) (mt : ℝ) (vel : Point) (ao : Bool) :
    ∀ (vs : List Point) (avoid oc : Bool),
      (chck_loop b mt vel ao vs avoid oc).1 =
        (vs.any (fun v => point_in_frame_time b mt v vel) ||
          (vs.isEmpty && avoid)) := by
  intro vs
  induction vs with
  | nil => intro avoid oc; simp [chck_loop]
  | cons v rest ih =>
    intro avoid oc
    by_cases hv : point_in_frame_time b mt v vel = true
    · simp [chck_loop, hv]
    · have hv' : point_in_frame_time b mt v vel = false :=
        Bool.eq_false_iff.mpr hv
      by_cases ha : avoid = false
      · simp [chck_loop, hv', ha, ih]
      · simp [chck_loop, hv', ha, ih]

/-- On a nonempty vertex list the loop's final flag is exactly the
swept-frame test. -/
theorem chck_loop_fst_ne (b : Border) (mt : ℝ) (vel : Point) (ao : Bool)
    (vs : List Point) (h : vs ≠ []) (avoid oc : Bool) :
    (chck_loop b mt vel ao vs avoid oc).1 =
      vs.any (fun v => point_in_frame_time b mt v vel) := by
  rw [chck_loop_fst]
  cases vs with
  | nil => exact absurd rfl h
  | cons v rest => simp

/-- When the obstacle was avoided before (`avoid_old = true`) and some
vertex is in the swept frame, the loop *overwrites* `obs_change` with
`false` (the flip test at line 711 compares equal). -/
theorem chck_loop_snd_hit (b : Border) (mt : ℝ) (vel : Point) :
    ∀ (vs : List Point) (avoid oc : Bool),
      vs.any (fun v => point_in_frame_time b mt v vel) = true →
      (chck_loop b mt vel true vs avoid oc).2 = false := by
  intro vs
  induction vs with
  | nil => intro avoid oc h; simp at h
  | cons v rest ih =>
    intro avoid oc h
    by_cases hv : point_in_frame_time b mt v vel = true
    · simp [chck_loop, hv]
    · have hv' : point_in_frame_time b mt v vel = false :=
        Bool.eq_false_iff.mpr hv
      have hrest : rest.any (fun v => point_in_frame_time b mt v vel) = true := by
        simpa [hv'] using h
      by_cases ha : avoid = false
      · simp [chck_loop, hv', ha, ih _ _ hrest]
      · simp [chck_loop, hv', ha, ih _ _ hrest]

/-- When the obstacle's flag is already cleared and no vertex is in the
swept frame, the loop leaves `obs_change` untouched. -/
theorem chck_loop_snd_miss (b : Border) (mt : ℝ) (vel : Point) (ao : Bool) :
    ∀ (vs : List Point) (oc : Bool),
      vs.any (fun v => point_in_frame_time b mt v vel) = false →
      (chck_loop b mt vel ao vs false oc).2 = oc := by
  intro vs
  induction vs with
  | nil => intro oc _; simp [chck_loop]
  | cons v rest ih =>
    intro oc h
    have hv : point_in_frame_time b mt v vel = false := by
      rcases List.any_eq_false.mp h v (List.mem_cons_self v rest) with h'
      exact Bool.eq_false_iff.mpr h'
    have hrest : rest.any (fun v => point_in_frame_time b mt v vel) = false := by
      rw [List.any_eq_false]
      intro x hx
      exact List.any_eq_false.mp h x (List.mem_cons_of_mem v hx)
    simp [chck_loop, hv, ih _ hrest]

/-- An obstacle always has checkpoints (four bounding-box corners, plus the
center for circles). -/
theorem checkpoints_map_ne_nil (ob : Obstacle) :
    ob.checkpoints.map (world_vertex ob) ≠ [] := by
  cases h : ob.shape <;> simp [Obstacle.checkpoints, h]

/-- `moving_step` on a moving obstacle: both lists append the refreshed
obstacle and `obs_change` is overwritten by the checkpoint loop. -/
theorem moving_step_moving (b : Border) (mt : ℝ)
    (acc : List Obstacle × List Obstacle × Bool) (ob : Obstacle)
    (h : ob.isMoving = true) :
    moving_step b mt acc ob =
      (acc.1 ++ [refresh_avoid b mt ob], acc.2.1 ++ [refresh_avoid b mt ob],
        (chck_loop b mt (ob.velx, ob.vely) ob.avoid
          (ob.checkpoints.map (world_vertex ob)) ob.avoid acc.2.2).2) := by
  simp only [moving_step, h, if_true, refresh_avoid]
  rw [chck_loop_fst_ne _ _ _ _ _ (checkpoints_map_ne_nil ob)]
  rfl

/-- `moving_step` on a non-moving obstacle. -/
theorem moving_step_still (b : Border) (mt : ℝ)
    (acc : List Obstacle × List Obstacle × Bool) (ob : Obstacle)
    (h : ob.isMoving = false) :
    moving_step b mt acc ob = (acc.1 ++ [ob], acc.2.1, acc.2.2) := by
  simp [moving_step, h]

/-- The obstacle loop's accumulated `moving_obstacles` list: the moving
obstacles, in order, with refreshed avoid flags. -/
theorem gmo_fold_moving (b : Border) (mt : ℝ) :
    ∀ (env : List Obstacle) (acc : List Obstacle × List Obstacle × Bool),
      (env.foldl (moving_step b mt) acc).2.1 =
        acc.2.1 ++ env.filterMap (fun ob =>
          if ob.isMoving then some (refresh_avoid b mt ob) else none) := by
  intro env
  induction env with
  | nil => intro acc; simp
  | cons ob rest ih =>
    intro acc
    rw [List.foldl_cons]
    by_cases hm : ob.isMoving = true
    · rw [moving_step_moving _ _ _ _ hm, ih, List.filterMap_cons]
      simp [hm]
    · have hm' : ob.isMoving = false := Bool.eq_false_iff.mpr hm
      rw [moving_step_still _ _ _ _ hm', ih, List.filterMap_cons]
      simp [hm']

/-- The obstacle loop's accumulated updated environment: every obstacle, in
order, with its avoid flag refreshed when moving. -/
theorem gmo_fold_env (b : Border) (mt : ℝ) :
    ∀ (env : List Obstacle) (acc : List Obstacle × List Obstacle × Bool),
      (env.foldl (moving_step b mt) acc).1 =
        acc.1 ++ env.map (refresh_avoid b mt) := by
  intro env
  induction env with
  | nil => intro acc; simp
  | cons ob rest ih =>
    intro acc
    rw [List.foldl_cons]
    by_cases hm : ob.isMoving = true
    · rw [moving_step_moving _ _ _ _ hm, ih, List.map_cons]
      simp [refresh_avoid, hm]
    · have hm' : ob.isMoving = false := Bool.eq_false_iff.mpr hm
      rw [moving_step_still _ _ _ _ hm', ih, List.map_cons]
      simp [refresh_avoid, hm']

/-- `refresh_avoid` preserves everything the query reads: shape, position,
velocity — hence the moving test and the swept-frame test. -/
theorem refresh_avoid_reads (b : Border) (mt : ℝ) (ob : Obstacle) :
    (refresh_avoid b mt ob).isMoving = ob.isMoving ∧
      obstacle_hit b mt (refresh_avoid b mt ob) = obstacle_hit b mt ob := by
  unfold refresh_avoid
  by_cases hm : ob.isMoving = true
  · rw [if_pos hm]
    exact ⟨rfl, rfl⟩
  · rw [if_neg hm]
    exact ⟨rfl, rfl⟩

/-- On a "stable" environment — every moving obstacle's flag already equals
its swept-frame test — the obstacle loop never leaves `obs_change` set. -/
theorem gmo_fold_oc_stable (b : Border) (mt : ℝ) :
    ∀ (env : List Obstacle) (l1 l2 : List Obstacle),
      (∀ ob ∈ env, ob.isMoving = true → ob.avoid = obstacle_hit b mt ob) →
      (env.foldl (moving_step b mt) (l1, l2, false)).2.2 = false := by
  intro env
  induction env with
  | nil => intro l1 l2 _; rfl
  | cons ob rest ih =>
    intro l1 l2 hstable
    rw [List.foldl_cons]
    by_cases hm : ob.isMoving = true
    · rw [moving_step_moving _ _ _ _ hm]
      have hflag : ob.avoid = obstacle_hit b mt ob :=
        hstable ob (List.mem_cons_self _ _) hm
      by_cases hh : obstacle_hit b mt ob = true
      · have hoc : (chck_loop b mt (ob.velx, ob.vely) ob.avoid
            (ob.checkpoints.map (world_vertex ob)) ob.avoid false).2 = false := by
          rw [hflag, hh]
          exact chck_loop_snd_hit b mt (ob.velx, ob.vely) _ _ _ hh
        rw [hoc]
        exact ih _ _ (fun o ho hmo => hstable o (List.mem_cons_of_mem _ ho) hmo)
      · have hh' : obstacle_hit b mt ob = false := Bool.eq_false_iff.mpr hh
        have hoc : (chck_loop b mt (ob.velx, ob.vely) ob.avoid
            (ob.checkpoints.map (world_vertex ob)) ob.avoid false).2 = false := by
          rw [hflag, hh']
          exact chck_loop_snd_miss b mt (ob.velx, ob.vely) false _ _ hh'
        rw [hoc]
        exact ih _ _ (fun o ho hmo => hstable o (List.mem_cons_of_mem _ ho) hmo)
    · rw [moving_step_still _ _ _ _ (Bool.eq_false_iff.mpr hm)]
      exact ih _ _ (fun o ho hmo => hstable o (List.mem_cons_of_mem _ ho) hmo)

/-- The refreshed environment has as many moving obstacles as the original
(the refresh changes only avoid flags). -/
theorem gmo_moving_count (b : Border) (mt : ℝ) (env : List Obstacle) :
    ((env.map (refresh_avoid b mt)).filterMap (fun ob =>
        if ob.isMoving then some (refresh_avoid b mt ob) else none)).length =
      (env.filterMap (fun ob =>
        if ob.isMoving then some (refresh_avoid b mt ob) else none)).length := by
  induction env with
  | nil => rfl
  | cons ob rest ih =>
    simp only [List.filterMap_map] at ih ⊢
    simp only [List.map_cons, List.filterMap_cons, Function.comp_apply]
    rw [(refresh_avoid_reads b mt ob).1]
    by_cases hm : ob.isMoving = true
    · simp [hm, ih]
    · simp [Bool.eq_false_iff.mpr hm, ih]

/-- Python 2 `round(1/0.5) = round(2.0) = 2`. -/
theorem pyRound_one_div_half : pyRound ((1 : ℝ) / 0.5) = 2 := by
  rw [pyRound, if_pos (by norm_num)]
  rw [show ((1 : ℝ) / 0.5 + 1 / 2) = 5 / 2 from by norm_num]
  rw [show ((5 : ℝ) / 2) = (5 : ℚ) / 2 from by norm_num]
  rw [Int.floor_eq_iff]
  norm_num

/-- `point_in_frame_time` with `motion_time = 1`: `N = 3`, `Ts = 1/3`, four
samples. -/
theorem pift_mt_one (b : Border) (p v : Point) :
    point_in_frame_time b 1 p v =
      (List.range 4).any (fun l =>
        b.xmin ≤ p.1 + (l : ℝ) * (1 / 3) * v.1 ∧
          p.1 + (l : ℝ) * (1 / 3) * v.1 ≤ b.xmax ∧
          b.ymin ≤ p.2 + (l : ℝ) * (1 / 3) * v.2 ∧
          p.2 + (l : ℝ) * (1 / 3) * v.2 ≤ b.ymax) := by
  simp only [point_in_frame_time, pyRound_one_div_half]
  norm_num
  rw [show Int.toNat 4 = 4 from rfl]

/-- A sample point whose start already lies in the unit frame is detected at
`l = 0`. -/
theorem pift_in_04 :
    point_in_frame_time ⟨0, 0, 1, 1⟩ 1 ((2 / 5 : ℝ), (2 / 5 : ℝ))
      ((1 / 10 : ℝ), (0 : ℝ)) = true := by
  rw [pift_mt_one, List.any_eq_true]
  refine ⟨0, List.mem_range.mpr (by norm_num), ?_⟩
  norm_num

/-- A point beyond the x-max edge moving in positive x never samples inside
the unit frame. -/
theorem pift_far (q : Point) (hq : (1 : ℝ) < q.1) :
    point_in_frame_time ⟨0, 0, 1, 1⟩ 1 q ((1 : ℝ), (0 : ℝ)) = false := by
  rw [pift_mt_one, List.any_eq_false]
  intro l _
  simp only [decide_eq_true_eq, not_and]
  intro _ h2
  have hmono : q.1 ≤ q.1 + (l : ℝ) * (1 / 3) * 1 := by
    have : (0 : ℝ) ≤ (l : ℝ) * (1 / 3) * 1 := by positivity
    linarith
  exact absurd (le_trans hmono h2) (not_le.mpr hq)

/-! ### Claims C3 and C4 -/

/-- The far obstacle's swept volume never intersects the unit frame. -/
theorem obstacle_hit_obC4 : obstacle_hit ⟨0, 0, 1, 1⟩ 1 obC4 = false := by
  norm_num [obstacle_hit, obC4, Obstacle.checkpoints, world_vertex,
    rotate_point, Real.cos_zero, Real.sin_zero, List.any_cons, List.any_nil]
  rw [pift_far _ (by norm_num), pift_far _ (by norm_num),
    pift_far _ (by norm_num), pift_far _ (by norm_num)]
  norm_num

/-- Counterexample to claim C3: obstacle A's avoid flag flips from `False`
to `True` during the call and the relevant-obstacle count is unchanged, so
the claim requires `changed = true`; but obstacle B, scanned later, is
already avoided and *overwrites* `obs_change` with `False` (the `else`
branch of line 711-714), so the call returns `changed = false`. -/
theorem C3_counterexample :
    (get_moving_obstacles_in_frame [obA, obB] (some [obA, obB])
      ⟨0, 0, 1, 1⟩ 1).2.2 = false ∧
    obA.avoid = false ∧
    (get_moving_obstacles_in_frame [obA, obB] (some [obA, obB])
      ⟨0, 0, 1, 1⟩ 1).2.1.map Obstacle.avoid = [true, true] ∧
    (get_moving_obstacles_in_frame [obA, obB] (some [obA, obB])
      ⟨0, 0, 1, 1⟩ 1).2.1.length = [obA, obB].length := by
  have hrun : get_moving_obstacles_in_frame [obA, obB] (some [obA, obB])
      ⟨0, 0, 1, 1⟩ 1 = ([obB, obB], [obB, obB], false) := by
    norm_num [get_moving_obstacles_in_frame, moving_step, chck_loop, obA, obB,
      Obstacle.isMoving, Obstacle.checkpoints, world_vertex, rotate_point,
      Real.cos_zero, Real.sin_zero, pift_in_04]
  rw [hrun]
  refine ⟨rfl, rfl, ?_, rfl⟩
  simp [obB]

/-- Claim C3 amended: a change in the number of relevant moving obstacles
always forces `changed = true` (lines 735-737); the flip component, by
contrast, reflects only the final state of the obstacle scan — a later
already-avoided in-frame obstacle resets `obs_change` to `False`, losing an
earlier flip (see the counterexample). -/
theorem C3_amended_count_change (env l : List Obstacle) (b : Border) (mt : ℝ)
    (h : l.length ≠
      (get_moving_obstacles_in_frame env (some l) b mt).2.1.length) :
    (get_moving_obstacles_in_frame env (some l) b mt).2.2 = true := by
  simp only [get_moving_obstacles_in_frame] at h ⊢
  rw [if_pos h]

/-- Witness for the amended C3: an empty environment against a nonempty
previous list reports a change. -/
theorem C3_amended_count_change_witness :
    (get_moving_obstacles_in_frame [] (some [obA]) ⟨0, 0, 1, 1⟩ 1).2.2 =
      true :=
  C3_amended_count_change [] [obA] _ _ (by simp [get_moving_obstacles_in_frame])

/-- Counterexample to claim C4: the returned `moving_obstacles` list
contains *every* obstacle with nonzero current velocity (appended
unconditionally at line 696), here an obstacle whose swept volume never
intersects the border — the claim's "exactly those whose swept volume
intersects" set would be empty. -/
theorem C4_counterexample :
    (get_moving_obstacles_in_frame [obC4] (some [obC4])
      ⟨0, 0, 1, 1⟩ 1).2.1 = [obC4] ∧
    obstacle_hit ⟨0, 0, 1, 1⟩ 1 obC4 = false := by
  refine ⟨?_, obstacle_hit_obC4⟩
  simp only [get_moving_obstacles_in_frame]
  rw [gmo_fold_moving]
  have hm : obC4.isMoving = true := by norm_num [obC4, Obstacle.isMoving]
  have hupd : refresh_avoid ⟨0, 0, 1, 1⟩ 1 obC4 = obC4 := by
    rw [refresh_avoid, if_pos hm, obstacle_hit_obC4]
    rfl
  simp [hm, hupd]

/-- Claim C4 amended: the returned set is the list of *all* moving obstacles
(in environment order, with refreshed avoid flags); the swept-volume test
decides each obstacle's avoid flag instead — after the call, every returned
obstacle's flag equals its checkpoint swept-frame test. -/
theorem C4_amended_returns_all_moving (env : List Obstacle)
    (prev : Option (List Obstacle)) (b : Border) (mt : ℝ) :
    (get_moving_obstacles_in_frame env prev b mt).2.1 =
      env.filterMap (fun ob =>
        if ob.isMoving then some (refresh_avoid b mt ob) else none) ∧
    ∀ ob ∈ (get_moving_obstacles_in_frame env prev b mt).2.1,
      ob.avoid = obstacle_hit b mt ob := by
  have h1 : (get_moving_obstacles_in_frame env prev b mt).2.1 =
      env.filterMap (fun ob =>
        if ob.isMoving then some (refresh_avoid b mt ob) else none) := by
    simp only [get_moving_obstacles_in_frame]
    rw [gmo_fold_moving]
    simp
  refine ⟨h1, ?_⟩
  intro ob hob
  rw [h1] at hob
  rcases List.mem_filterMap.mp hob with ⟨a, _, hfa⟩
  by_cases hm : a.isMoving = true
  · rw [if_pos hm] at hfa
    have hao : refresh_avoid b mt a = ob := Option.some.inj hfa
    rw [← hao, (refresh_avoid_reads b mt a).2]
    simp [refresh_avoid, hm]
  · rw [if_neg hm] at hfa
    simp at hfa

/-- Witness for the amended C4 on the far obstacle. -/
theorem C4_amended_returns_all_moving_witness :
    obC4.avoid = obstacle_hit ⟨0, 0, 1, 1⟩ 1 obC4 := by
  refine (C4_amended_returns_all_moving [obC4] (some [obC4])
    ⟨0, 0, 1, 1⟩ 1).2 obC4 ?_
  rw [(C4_amended_returns_all_moving [obC4] (some [obC4]) ⟨0, 0, 1, 1⟩ 1).1]
  have hm : obC4.isMoving = true := by norm_num [obC4, Obstacle.isMoving]
  have hupd : refresh_avoid ⟨0, 0, 1, 1⟩ 1 obC4 = obC4 := by
    rw [refresh_avoid, if_pos hm, obstacle_hit_obC4]
    rfl
  simp [hm, hupd]

/-! ### Claim C8 -/

/-- Claim C8: calling the moving-obstacle query twice in succession with
unchanged obstacle state (positions, velocities, and the avoid flags as left
by the first call) and an unchanged frame and motion time returns
`changed = false` on the second call: after the first call every moving
obstacle's flag equals its swept-frame test, so no flip survives the second
scan, and the relevant-obstacle count matches the stored previous list. -/
theorem C8_second_call_reports_no_change (env : List Obstacle)
    (prev : Option (List Obstacle)) (b : Border) (mt : ℝ) :
    (get_moving_obstacles_in_frame
        (get_moving_obstacles_in_frame env prev b mt).1
        (some (get_moving_obstacles_in_frame env prev b mt).2.1) b mt).2.2 =
      false := by
  have henv : (get_moving_obstacles_in_frame env prev b mt).1 =
      env.map (refresh_avoid b mt) := by
    simp only [get_moving_obstacles_in_frame]
    rw [gmo_fold_env]
    simp
  have hmov : (get_moving_obstacles_in_frame env prev b mt).2.1 =
      env.filterMap (fun ob =>
        if ob.isMoving then some (refresh_avoid b mt ob) else none) := by
    simp only [get_moving_obstacles_in_frame]
    rw [gmo_fold_moving]
    simp
  rw [henv, hmov]
  have hstable : ∀ o ∈ env.map (refresh_avoid b mt),
      o.isMoving = true → o.avoid = obstacle_hit b mt o := by
    intro o ho hmo
    rcases List.mem_map.mp ho with ⟨ob, _, rfl⟩
    rw [(refresh_avoid_reads b mt ob).2]
    rw [(refresh_avoid_reads b mt ob).1] at hmo
    simp [refresh_avoid, hmo]
  have hoc := gmo_fold_oc_stable b mt (env.map (refresh_avoid b mt)) [] []
    hstable
  have hmov2 : ((env.map (refresh_avoid b mt)).foldl (moving_step b mt)
      ([], [], false)).2.1.length =
      (env.filterMap (fun ob =>
        if ob.isMoving then some (refresh_avoid b mt ob) else none)).length := by
    rw [gmo_fold_moving]
    simp only [List.nil_append]
    exact gmo_moving_count b mt env
  simp only [get_moving_obstacles_in_frame]
  rw [if_neg (not_ne_iff.mpr hmov2.symm)]
  exact hoc

/-- Witness for C8 at a concrete (empty) environment. -/
theorem C8_second_call_reports_no_change_witness :
    (get_moving_obstacles_in_frame
        (get_moving_obstacles_in_frame [] none ⟨0, 0, 1, 1⟩ 1).1
        (some (get_moving_obstacles_in_frame [] none ⟨0, 0, 1, 1⟩ 1).2.1)
        ⟨0, 0, 1, 1⟩ 1).2.2 = false :=
  C8_second_call_reports_no_change [] none ⟨0, 0, 1, 1⟩ 1

/-! ### Claim C1 -/

/-- Any border reaching the obstacle's bounding box sees it in the
stationary query. -/
theorem stat_envC1_hit (bb : Border) (h1 : bb.xmin ≤ 1)
    (h2 : 97 / 100 ≤ bb.xmax) (h3 : bb.ymin ≤ 1 / 10)
    (h4 : -(1 / 10) ≤ bb.ymax) :
    get_stationary_obstacles_in_frame envC1 bb = [obC1] := by
  norm_num [get_stationary_obstacles_in_frame, envC1, obC1,
    Obstacle.isStationary, Obstacle.supported, overlapsFrame, Obstacle.bbox,
    Shape.canvas_limits, List.filter, h1, h2, h3, h4]

/-- Any border stopping left of the obstacle's bounding box is obstacle
free. -/
theorem stat_envC1_miss (bb : Border) (h : bb.xmax < 97 / 100) :
    get_stationary_obstacles_in_frame envC1 bb = [] := by
  norm_num [get_stationary_obstacles_in_frame, envC1, obC1,
    Obstacle.isStationary, Obstacle.supported, overlapsFrame, Obstacle.bbox,
    Shape.canvas_limits, List.filter, not_le.mpr h]

/-- The path waypoint closest to the origin is the first one. -/
theorem closest_idx_C1 : closest_idx roomC1 pathC1 ((0 : ℝ), (0 : ℝ)) = 0 := by
  have hd0 : distance_between_points ((0 : ℝ), (0 : ℝ)) ((0 : ℝ), (0 : ℝ)) = 0 := by
    rw [distance_between_points_horiz ((0 : ℝ), (0 : ℝ)) ((0 : ℝ), (0 : ℝ)) rfl]
    norm_num
  have hd1 : distance_between_points ((1 / 10 : ℝ), (0 : ℝ)) ((0 : ℝ), (0 : ℝ)) = 1 / 10 := by
    rw [distance_between_points_horiz ((1 / 10 : ℝ), (0 : ℝ)) ((0 : ℝ), (0 : ℝ)) rfl]
    norm_num
  norm_num [closest_idx, closest_idx_go, roomC1, pathC1, hd0, hd1,
    -Prod.mk_zero_zero]

/-- `get_min_nobs_frame` on the C1 input: the goal `(0.1, 0)` is inside the
seed frame `[-0.36, 0.36]^2`, so the whole remaining path is absorbed and
the seed is committed without any obstacle check. -/
theorem min_nobs_C1 :
    get_min_nobs_frame envC1 roomC1 pathC1 ((0 : ℝ), (0 : ℝ)) 0.3 1.2 =
      some ⟨⟨-(9 / 25), -(9 / 25), 9 / 25, 9 / 25⟩, pathC1,
        some ((1 / 10 : ℝ), (0 : ℝ)), []⟩ := by
  have hlast : pathC1.getLast? = some ((1 / 10 : ℝ), (0 : ℝ)) := rfl
  have hne : pathC1 ≠ [] := by simp [pathC1]
  norm_num [get_min_nobs_frame, hlast, hne, closest_idx_C1, make_border,
    point_in_frame, List.drop_zero, -Prod.mk_zero_zero]

/-- The ceiling evaluation behind the fuel bound of all four scale-up loops
in the C1 run. -/
theorem toNat_ceil_C1 : (⌈(32 : ℝ) / 5⌉).toNat = 7 := by
  rw [show (⌈(32 : ℝ) / 5⌉ : ℤ) = 7 from by
    rw [Int.ceil_eq_iff]
    norm_num]
  rfl

/-- The positive-x stage of the C1 run: the first try at the room bound
`xmax = 1` contains the obstacle, the 0.1-step loop then climbs to `0.96`
obstacle-free, and the next step crosses the room bound — whereupon the
source commits `xmax = 1`, the very border that already failed. -/
theorem scale_x_plus_C1 :
    scale_x_plus envC1 roomC1 (-(9 / 25)) (-(9 / 25)) (9 / 25) (9 / 25) = 1 := by
  norm_num [scale_x_plus, scale_x_plus_loop, make_border, Room.xmax, roomC1,
    incr_fuel, toNat_ceil_C1, stat_envC1_hit, stat_envC1_miss]

/-- The negative-x stage immediately meets the (already committed) obstacle
and keeps `xmin = -0.36`. -/
theorem scale_x_minus_C1 :
    scale_x_minus envC1 roomC1 (-(9 / 25)) (-(9 / 25)) 1 (9 / 25) = -(9 / 25) := by
  norm_num [scale_x_minus, scale_x_minus_loop, make_border, Room.xmin, roomC1,
    incr_fuel, toNat_ceil_C1, stat_envC1_hit, stat_envC1_miss]

/-- The positive-y stage keeps `ymax = 0.36`. -/
theorem scale_y_plus_C1 :
    scale_y_plus envC1 roomC1 (-(9 / 25)) (-(9 / 25)) 1 (9 / 25) = 9 / 25 := by
  norm_num [scale_y_plus, scale_y_plus_loop, make_border, Room.ymax, roomC1,
    incr_fuel, toNat_ceil_C1, stat_envC1_hit, stat_envC1_miss]

/-- The negative-y stage keeps `ymin = -0.36` and rebuilds the committed
border. -/
theorem scale_y_minus_C1 :
    scale_y_minus envC1 roomC1 (-(9 / 25)) (-(9 / 25)) 1 (9 / 25) =
      ⟨-(9 / 25), -(9 / 25), 1, 9 / 25⟩ := by
  norm_num [scale_y_minus, scale_y_minus_loop, make_border, Room.ymin, roomC1,
    incr_fuel, toNat_ceil_C1, stat_envC1_hit, stat_envC1_miss]

/-- `scale_up_frame` on the C1 frame: the committed border reaches the room
bound `xmax = 1` and therefore overlaps the obstacle. -/
theorem scale_up_C1 :
    scale_up_frame envC1 roomC1 pathC1
      ⟨⟨-(9 / 25), -(9 / 25), 9 / 25, 9 / 25⟩, pathC1,
        some ((1 / 10 : ℝ), (0 : ℝ)), []⟩ =
      (⟨-(9 / 25), -(9 / 25), 1, 9 / 25⟩, pathC1) := by
  norm_num [scale_up_frame, scale_x_plus_C1, scale_x_minus_C1,
    scale_y_plus_C1, scale_y_minus_C1, idxOfP, rescan_loop, point_in_frame,
    pathC1, -Prod.mk_zero_zero]

/-- Border distances of the endpoint `(0.1, 0)` inside the final C1
border. -/
theorem dist_c1 :
    distance_to_border ⟨-(9 / 25), -(9 / 25), 1, 9 / 25⟩
      ((1 / 10 : ℝ), (0 : ℝ)) = (-(23 / 50), -(9 / 25)) := by
  rw [distance_to_border_eval ⟨-(9 / 25), -(9 / 25), 1, 9 / 25⟩
    ((1 / 10 : ℝ), (0 : ℝ)) (by norm_num) (by norm_num)]
  norm_num [abs_of_nonneg, abs_of_nonpos]

/-- The endpoint is far enough from the final border: the method-2
correction leaves the waypoints unchanged. -/
theorem correction_C1 :
    min_nobs_correction 0.3 1.2 ⟨-(9 / 25), -(9 / 25), 1, 9 / 25⟩ pathC1 =
      some pathC1 := by
  have hlast : pathC1.getLast? = some ((1 / 10 : ℝ), (0 : ℝ)) := rfl
  simp only [min_nobs_correction, hlast, dist_c1]
  rw [if_neg (by norm_num [abs_of_nonpos])]

/-- Claim C1 (code bug): a committed min-nobs frame whose stationary
obstacle query is nonempty.  The goal lies inside the seed frame, so
`get_min_nobs_frame` commits the seed without any obstacle check; then the
positive-x stage of `scale_up_frame` first tries `xmax` at the room bound
`1`, finds the wall-hugging obstacle `[0.97,1] x [-0.1,0.1]`, falls back to
0.1-step growth up to `0.96`, and when the next step crosses the room bound
it *commits `xmax = 1` without re-checking* (lines 1133-1136) — exactly the
border it had already determined to contain the obstacle.  The committed
frame `[-0.36,1] x [-0.36,0.36]` contains the obstacle, contradicting the
claim and the function's own comment ("scale up the current frame ... until
it hits the borders or it contains an obstacle"). -/
theorem C1_scale_up_boundary_commits_obstacle :
    create_frame_min_nobs envC1 roomC1 pathC1 ((0 : ℝ), (0 : ℝ)) 0.3 1.2 =
      some ⟨⟨-(9 / 25), -(9 / 25), 1, 9 / 25⟩, pathC1,
        some ((1 / 10 : ℝ), (0 : ℝ)), [obC1]⟩ ∧
    get_stationary_obstacles_in_frame envC1
      ⟨-(9 / 25), -(9 / 25), 1, 9 / 25⟩ = [obC1] := by
  have hstat : get_stationary_obstacles_in_frame envC1
      ⟨-(9 / 25), -(9 / 25), 1, 9 / 25⟩ = [obC1] :=
    stat_envC1_hit _ (by norm_num) (by norm_num) (by norm_num) (by norm_num)
  refine ⟨?_, hstat⟩
  have hlast : pathC1.getLast? = some ((1 / 10 : ℝ), (0 : ℝ)) := rfl
  rw [create_frame_min_nobs, min_nobs_C1, Option.some_bind']
  simp only [scale_up_C1, correction_C1, Option.map_some', hstat, hlast]

end MultiFrame
